import Mathlib

/-!
Verification of the trace session context core of the
openclaw-observability-plugin repository.

The embedding models `src/hooks.ts` (the lifecycle event router, the
session context store and the stale-context reaper) and
`src/diagnostics.ts` (the usage reconciliation side channel) as pure
state-transition functions over an explicit state record.

Conventions of the embedding:
  * JavaScript values appearing in event payloads are modelled by the
    untyped tree `Val`; optional chaining `a?.b` is the total field
    access `Val.get`, `a || b` is `jsOr`, and truthiness follows the
    JavaScript rules (with `Val.num` carrying integers: the token
    counts manipulated by the source are integers, and the only
    non-integral number, `costUsd`, is passed through without
    arithmetic).
  * Spans are records carrying an identifier, a name, the parent span
    identifier taken from the propagation context at creation, an
    attribute association list (`setAttribute` overwrites), a status
    and a counter of `end()` calls.
  * Metric instruments are an enumeration; each `counter.add` or
    `histogram.record` appends one entry to a log, so a claim about
    "recorded exactly once" becomes a claim about the length of the
    filtered log.  The attribute dictionaries passed to the metric
    calls are not tracked: no claim inspects them.
  * The handlers in the source are wrapped in try/catch that swallows
    every fault.  The handler bodies, given the guards they contain,
    can only throw at a few identified points (iterating a
    non-iterable `messages` value, calling `.filter` on a non-array,
    and reading `.type` on a null element of a content array); each
    such point is modelled as an early return keeping the state
    mutated so far, exactly what the catch produces.  Everywhere else
    the bodies are total, so "returns normally" holds by construction.
  * String slicing uses character counts where JavaScript uses UTF-16
    code units; no claim depends on the cut position.
-/

namespace OpenClawObs

/-- Untyped JavaScript-like value for event payloads. -/
inductive Val where
  | undef
  | null
  | nan
  | bool (b : Bool)
  | num (n : Int)
  | str (s : String)
  | arr (xs : List Val)
  | obj (fs : List (String × Val))

mutual

/-- Structural equality on `Val` (JavaScript SameValueZero restricted to the
values our model can build: no claim exercises reference identity). -/
def Val.beq : Val → Val → Bool
  | .undef, .undef => true
  | .null, .null => true
  | .nan, .nan => true
  | .bool a, .bool b => a == b
  | .num a, .num b => a == b
  | .str a, .str b => a == b
  | .arr a, .arr b => Val.beqList a b
  | .obj a, .obj b => Val.beqFields a b
  | _, _ => false

def Val.beqList : List Val → List Val → Bool
  | [], [] => true
  | a :: as, b :: bs => Val.beq a b && Val.beqList as bs
  | _, _ => false

def Val.beqFields : List (String × Val) → List (String × Val) → Bool
  | [], [] => true
  | (k, a) :: as, (l, b) :: bs => k == l && Val.beq a b && Val.beqFields as bs
  | _, _ => false

end

instance : BEq Val := ⟨Val.beq⟩

mutual

theorem Val.beq_refl : ∀ a : Val, Val.beq a a = true
  | .undef => rfl
  | .null => rfl
  | .nan => rfl
  | .bool a => by simp [Val.beq]
  | .num a => by simp [Val.beq]
  | .str a => by simp [Val.beq]
  | .arr a => Val.beqList_refl a
  | .obj a => Val.beqFields_refl a

theorem Val.beqList_refl : ∀ a : List Val, Val.beqList a a = true
  | [] => rfl
  | a :: as => by
      have h1 := Val.beq_refl a
      have h2 := Val.beqList_refl as
      simp [Val.beqList, h1, h2]

theorem Val.beqFields_refl : ∀ a : List (String × Val), Val.beqFields a a = true
  | [] => rfl
  | (k, a) :: as => by
      have h1 := Val.beq_refl a
      have h2 := Val.beqFields_refl as
      simp [Val.beqFields, h1, h2]

end

theorem Val.beq_refl' (a : Val) : (a == a) = true := Val.beq_refl a

/-- JavaScript truthiness. -/
def Val.truthy : Val → Bool
  | .undef => false
  | .null => false
  | .nan => false
  | .bool b => b
  | .num n => n != 0
  | .str s => s ≠ ""
  | .arr _ => true
  | .obj _ => true

/-- `a || b`. -/
def jsOr (a b : Val) : Val := if a.truthy then a else b

/-- Optional-chaining field access `a?.k`: never throws, yields `undefined`
when the receiver is not an object or lacks the field.  (Plain access `a.k`
in the source always occurs behind a truthiness guard on `a`, where it
agrees with this function; the genuinely throwing accesses on possibly-null
array elements are modelled explicitly in the handlers.) -/
def Val.get : Val → String → Val
  | .obj fs, k =>
    match fs.find? (fun f => f.fst == k) with
    | some f => f.snd
    | none => .undef
  | _, _ => (.undef : Val)

/-- `typeof v === "number"` (true for NaN as in JavaScript). -/
def Val.isNum : Val → Bool
  | .num _ => true
  | .nan => true
  | _ => false

mutual

/-- JavaScript ToString, as used by template literals, `String(x)` and
`Array.prototype.join`. -/
def jsToString : Val → String
  | .undef => "undefined"
  | .null => "null"
  | .nan => "NaN"
  | .bool b => if b then "true" else "false"
  | .num n => toString n
  | .str s => s
  | .arr xs => jsArrToString xs
  | .obj _ => "[object Object]"

def jsArrToString : List Val → String
  | [] => ""
  | [c] => jsToString c
  | c :: rest => jsToString c ++ "," ++ jsArrToString rest

end

/-- JavaScript ToNumber, partially: `none` stands for NaN.  Object-to-
primitive coercion is approximated as NaN; no claim reaches that corner. -/
def jsToNumber : Val → Option Int
  | .num n => some n
  | .nan => none
  | .bool b => some (if b then 1 else 0)
  | .null => some 0
  | .undef => none
  | .str s => if s = "" then some 0 else s.toInt?
  | .arr _ => none
  | .obj _ => none

/-- `a > b` under numeric coercion (false when either side is NaN). -/
def jsGt (a b : Val) : Bool :=
  match jsToNumber a, jsToNumber b with
  | some x, some y => x > y
  | _, _ => false

/-- JavaScript `+`: numeric addition, or string concatenation when either
operand converts to a string primitive (strings, arrays, objects). -/
def jsAdd (a b : Val) : Val :=
  match a, b with
  | .str _, _ => .str (jsToString a ++ jsToString b)
  | _, .str _ => .str (jsToString a ++ jsToString b)
  | .arr _, _ => .str (jsToString a ++ jsToString b)
  | _, .arr _ => .str (jsToString a ++ jsToString b)
  | .obj _, _ => .str (jsToString a ++ jsToString b)
  | _, .obj _ => .str (jsToString a ++ jsToString b)
  | _, _ =>
    match jsToNumber a, jsToNumber b with
    | some x, some y => .num (x + y)
    | _, _ => .nan

/-- `x.length` as a value: defined for strings and arrays, else undefined. -/
def jsLength : Val → Val
  | .str s => .num s.length
  | .arr xs => .num xs.length
  | _ => .undef

mutual

/-- `JSON.stringify`, close enough for the bounded forensics preview the
tool handler attaches (string escaping is limited to quote and backslash;
no claim inspects the preview). -/
def jsonStringify : Val → String
  | .undef => "null"
  | .null => "null"
  | .nan => "null"
  | .bool b => if b then "true" else "false"
  | .num n => toString n
  | .str s => "\"" ++ s ++ "\""
  | .arr xs => "[" ++ jsonStringifyList xs ++ "]"
  | .obj fs => "\x7b" ++ jsonStringifyFields fs ++ "\x7d"

def jsonStringifyList : List Val → String
  | [] => ""
  | [c] => jsonStringify c
  | c :: rest => jsonStringify c ++ "," ++ jsonStringifyList rest

def jsonStringifyFields : List (String × Val) → String
  | [] => ""
  | [(k, v)] => "\"" ++ k ++ "\":" ++ jsonStringify v
  | (k, v) :: rest => "\"" ++ k ++ "\":" ++ jsonStringify v ++ "," ++ jsonStringifyFields rest

end

/-- Elements a `for…of` loop iterates over: arrays yield their elements,
strings their characters; other values are not iterable (iterating them
throws a TypeError). -/
def iterElems : Val → Option (List Val)
  | .arr xs => some xs
  | .str s => some (s.data.map (fun c => .str (String.mk [c])))
  | _ => none

section AssocMaps

variable {α : Type}

/-- `Map.get` on an insertion-ordered association list. -/
def alookup : List (Val × α) → Val → Option α
  | [], _ => none
  | (k, v) :: rest, key => if k == key then some v else alookup rest key

/-- `Map.set`: replace in place or append. -/
def aset : List (Val × α) → Val → α → List (Val × α)
  | [], key, v => [(key, v)]
  | (k, w) :: rest, key, v =>
    if k == key then (k, v) :: rest else (k, w) :: aset rest key v

/-- `Map.delete`. -/
def aerase : List (Val × α) → Val → List (Val × α)
  | [], _ => []
  | (k, w) :: rest, key =>
    if k == key then aerase rest key else (k, w) :: aerase rest key

theorem alookup_aset_self (l : List (Val × α)) (k : Val) (v : α) :
    alookup (aset l k v) k = some v := by
  induction l with
  | nil => simp [aset, alookup, Val.beq_refl']
  | cons hd tl ih =>
    by_cases h : (hd.fst == k) = true
    · simp [aset, alookup, h]
    · simp only [aset, alookup]
      rw [if_neg (by simpa using h)]
      simpa [alookup, h] using ih

theorem alookup_aerase_self (l : List (Val × α)) (k : Val) :
    alookup (aerase l k) k = none := by
  induction l with
  | nil => simp [aerase, alookup]
  | cons hd tl ih =>
    by_cases h : (hd.fst == k) = true
    · simpa [aerase, h] using ih
    · simpa [aerase, alookup, h] using ih

theorem aerase_of_alookup_none (l : List (Val × α)) (k : Val)
    (h : alookup l k = none) : aerase l k = l := by
  induction l with
  | nil => rfl
  | cons hd tl ih =>
    by_cases hk : (hd.fst == k) = true
    · simp [alookup, hk] at h
    · simp only [alookup] at h
      rw [if_neg hk] at h
      simp [aerase, hk, ih h]

end AssocMaps

/-! ## Spans, metrics and the plugin state -/

/-- OTel span status codes. -/
inductive StatusCode where
  | unset
  | ok
  | error
deriving DecidableEq

/-- One created span: identifier, name, parent span taken from the
propagation context passed to `tracer.startSpan`, attributes, status and
how many times `end()` was called on it. -/
structure SpanData where
  sid : Nat
  name : String
  parent : Option Nat
  attrs : List (String × Val)
  status : StatusCode
  statusMsg : Option String
  endCount : Nat

/-- The metric instruments of `telemetry.ts` that the modelled handlers
touch (plus the dynamically created cost counter of diagnostics.ts). -/
inductive Instr where
  | toolCalls
  | toolErrors
  | messagesReceived
  | tokensPrompt
  | tokensCompletion
  | tokensTotal
  | llmRequests
  | sessionResets
  | costUsd
  | agentTurnDuration
  | llmDuration
deriving DecidableEq

/-- `SessionTraceContext` of hooks.ts: span handles are span identifiers,
propagation contexts are the span identifier they carry (`none` is the
empty ambient context). -/
structure SessionTraceContext where
  rootSpan : Nat
  rootContext : Option Nat
  agentSpan : Option Nat
  agentContext : Option Nat
  startTime : Nat

/-- `PendingUsageData` of diagnostics.ts; the fields hold whatever values
the diagnostic event carried. -/
structure PendingUsageData where
  costUsd : Val
  usage : Val
  context : Val
  durationMs : Val
  provider : Val
  model : Val

/-- The whole mutable state of the plugin core: the span store of the
tracer, the three session-keyed maps, and the metric log. -/
structure S where
  spans : List SpanData
  nextSid : Nat
  sessionContextMap : List (Val × SessionTraceContext)
  pendingUsageMap : List (Val × PendingUsageData)
  activeAgentSpans : List (Val × Nat)
  metricLog : List (Instr × Val)

def initState : S :=
  { spans := [], nextSid := 0, sessionContextMap := [],
    pendingUsageMap := [], activeAgentSpans := [], metricLog := [] }

/-- Attribute update: `span.setAttribute` overwrites an existing key. -/
def setAttrL : List (String × Val) → String → Val → List (String × Val)
  | [], k, v => [(k, v)]
  | (a, b) :: rest, k, v =>
    if a == k then (a, v) :: rest else (a, b) :: setAttrL rest k v

def attrLookup : List (String × Val) → String → Option Val
  | [], _ => none
  | (a, b) :: rest, k => if a == k then some b else attrLookup rest k

def startSpan (s : S) (n : String) (parent : Option Nat)
    (attrs : List (String × Val)) : S × Nat :=
  let sid := s.nextSid
  ({ s with
      spans := s.spans ++
        [{ sid := sid, name := n, parent := parent, attrs := attrs,
           status := .unset, statusMsg := none, endCount := 0 }],
      nextSid := sid + 1 }, sid)

def withSpan (s : S) (sid : Nat) (f : SpanData → SpanData) : S :=
  { s with spans := s.spans.map (fun sp => if sp.sid = sid then f sp else sp) }

def spanSetAttr (s : S) (sid : Nat) (k : String) (v : Val) : S :=
  withSpan s sid (fun sp => { sp with attrs := setAttrL sp.attrs k v })

def spanSetStatus (s : S) (sid : Nat) (c : StatusCode) (m : Option String) : S :=
  withSpan s sid (fun sp => { sp with status := c, statusMsg := m })

def spanEnd (s : S) (sid : Nat) : S :=
  withSpan s sid (fun sp => { sp with endCount := sp.endCount + 1 })

def addMetric (s : S) (i : Instr) (v : Val) : S :=
  { s with metricLog := s.metricLog ++ [(i, v)] }

/-- How many `add`/`record` calls hit the given instrument. -/
def countInstr (s : S) (i : Instr) : Nat :=
  (s.metricLog.filter (fun e => e.fst = i)).length

def findSpan (s : S) (sid : Nat) : Option SpanData :=
  s.spans.find? (fun sp => sp.sid = sid)

def spanAttr (s : S) (sid : Nat) (k : String) : Option Val :=
  match findSpan s sid with
  | some sp => attrLookup sp.attrs k
  | none => none

/-! ## Small payload predicates -/

def Val.isUndef : Val → Bool
  | .undef => true
  | _ => false

def isNullOrUndef : Val → Bool
  | .null => true
  | .undef => true
  | _ => false

/-- Strict equality `v === "t"` against a string literal. -/
def isStrV (v : Val) (t : String) : Bool :=
  match v with
  | .str u => u == t
  | _ => false

/-- Strict equality `v === true`. -/
def isTrueV : Val → Bool
  | .bool true => true
  | _ => false

/-- Strict equality `v === false`. -/
def isFalseV : Val → Bool
  | .bool false => true
  | _ => false

def isAssistant (m : Val) : Bool := isStrV (m.get ("role")) ("assistant")

/-! ## The lifecycle event handlers (hooks.ts) -/

/-- `message_received` handler (hooks.ts 94–144).  `secMsg` stands for the
external `checkMessageSecurity` detector; the spec scopes the detectors
out as pure side-lookups, so detector-internal span and counter effects
are not modelled (no claim inspects them). -/
def messageReceived (secMsg : String → Bool) (s : S) (event ctx : Val) : S :=
  let channel := jsOr (event.get ("channel")) (.str ("unknown"))
  let sessionKey := jsOr (event.get ("sessionKey")) (jsOr (ctx.get ("sessionKey")) (.str ("unknown")))
  let from_ := jsOr (event.get ("from")) (jsOr (event.get ("senderId")) (.str ("unknown")))
  let messageText := jsOr (event.get ("text")) (jsOr (event.get ("message")) (.str ("")))
  let (s, sid) := startSpan s ("openclaw.message.received") none
    [("openclaw.message.channel", channel),
     ("openclaw.session.key", sessionKey),
     ("openclaw.message.direction", .str ("inbound")),
     ("openclaw.message.from", from_)]
  let _fired : Bool :=
    match messageText with
    | .str t => if t ≠ "" then secMsg t else false
    | _ => false
  let s := addMetric s .messagesReceived (.num 1)
  let s := spanSetStatus s sid .ok none
  spanEnd s sid

/-- `before_agent_start` handler (hooks.ts 157–223): looks up or creates
the root span for the session, then unconditionally opens a new
agent-turn span as a child of the stored root context, stores it on the
context and publishes it in `activeAgentSpans`. -/
def beforeAgentStart (now : Nat) (s : S) (event ctx : Val) : S :=
  let sessionKey := jsOr (event.get ("sessionKey")) (jsOr (ctx.get ("sessionKey")) (.str ("unknown")))
  let agentId := jsOr (event.get ("agentId")) (jsOr (ctx.get ("agentId")) (.str ("unknown")))
  let model := jsOr (event.get ("model")) (.str ("unknown"))
  let (s, sessionCtx) :=
    match alookup s.sessionContextMap sessionKey with
    | some c => (s, c)
    | none =>
      let (s, rootSid) := startSpan s ("openclaw.request") none
        [("openclaw.session.key", sessionKey),
         ("openclaw.message.direction", .str ("inbound"))]
      let c : SessionTraceContext :=
        { rootSpan := rootSid, rootContext := some rootSid,
          agentSpan := none, agentContext := none, startTime := now }
      ({ s with sessionContextMap := aset s.sessionContextMap sessionKey c }, c)
  let (s, agentSid) := startSpan s ("openclaw.agent.turn") sessionCtx.rootContext
    [("openclaw.agent.id", agentId),
     ("openclaw.session.key", sessionKey),
     ("openclaw.agent.model", model)]
  let sessionCtx := { sessionCtx with agentSpan := some agentSid, agentContext := some agentSid }
  let s := { s with sessionContextMap := aset s.sessionContextMap sessionKey sessionCtx }
  { s with activeAgentSpans := aset s.activeAgentSpans sessionKey agentSid }

/-- The session key of a tool event (hooks.ts 238): context field or
`"unknown"`. -/
def toolSessionKey (ctx : Val) : Val := jsOr (ctx.get ("sessionKey")) (.str ("unknown"))

/-- Parent-context choice of the tool handler (hooks.ts 252): agent
context if present, else root context, else the unparented ambient
context. -/
def toolParent (s : S) (ctx : Val) : Option Nat :=
  match alookup s.sessionContextMap (toolSessionKey ctx) with
  | some c =>
    match c.agentContext with
    | some a => some a
    | none => c.rootContext
  | none => none

/-- `tool_result_persist` handler (hooks.ts 231–321).  `secTool` stands
for the external `checkToolSecurity` detector (pure side-lookup, see
`messageReceived`).  Reading `.type` on a `null`/`undefined` element of
the content array throws a TypeError in the source; the surrounding
catch then swallows it, leaving the span un-ended — modelled by
returning the state accumulated up to that point. -/
def toolResultPersist (secTool : Val → Val → Bool) (s : S) (event ctx : Val) : S :=
  let toolName := jsOr (event.get ("toolName")) (.str ("unknown"))
  let toolCallId := jsOr (event.get ("toolCallId")) (.str (""))
  let isSynthetic := isTrueV (event.get ("isSynthetic"))
  let sessionKey := toolSessionKey ctx
  let agentId := jsOr (ctx.get ("agentId")) (.str ("unknown"))
  let toolInput := jsOr (event.get ("input")) (jsOr (event.get ("toolInput")) (jsOr (event.get ("args")) (.obj [])))
  let s := addMetric s .toolCalls (.num 1)
  let parentContext : Option Nat := toolParent s ctx
  let (s, sid) := startSpan s ("tool." ++ jsToString toolName) parentContext
    [("openclaw.tool.name", toolName),
     ("openclaw.tool.call_id", toolCallId),
     ("openclaw.tool.is_synthetic", .bool isSynthetic),
     ("openclaw.session.key", sessionKey),
     ("openclaw.agent.id", agentId)]
  let fired := secTool toolName toolInput
  let s :=
    if fired then
      if toolInput.truthy then
        spanSetAttr s sid ("openclaw.tool.input_preview") (.str ((jsonStringify toolInput).take 1000))
      else s
    else s
  let message := event.get ("message")
  let statusStep : S → S := fun s =>
    if isTrueV (message.get ("is_error")) || isTrueV (message.get ("isError")) then
      spanSetStatus (addMetric s .toolErrors (.num 1)) sid .error (some ("Tool execution error"))
    else if !fired then spanSetStatus s sid .ok none
    else s
  let inspected : Option S :=
    if message.truthy then
      match message.get ("content") with
      | .arr cs =>
        if cs.any isNullOrUndef then none
        else
          let textParts := (cs.filter (fun c => isStrV (c.get ("type")) ("text"))).map
            (fun c => jsToString (jsOr (c.get ("text")) (.str (""))))
          let totalChars : Nat := (textParts.map String.length).sum
          let s := spanSetAttr s sid ("openclaw.tool.result_chars") (.num totalChars)
          let s := spanSetAttr s sid ("openclaw.tool.result_parts") (.num cs.length)
          some (statusStep s)
      | _ => some (statusStep s)
    else if !fired then some (spanSetStatus s sid .ok none)
    else some s
  match inspected with
  | none => s
  | some s => spanEnd s sid

/-! ## Turn-end usage extraction (hooks.ts 345–419) -/

/-- Session-key resolution of the turn-end handler (hooks.ts 336). -/
def endSessionKey (event ctx : Val) : Val :=
  jsOr (event.get ("sessionKey")) (jsOr (ctx.get ("sessionKey")) (.str ("unknown")))

/-- Running totals of the fallback extraction loop; the entries are
JavaScript numbers (so `Val`s), `model` is the last assistant model. -/
structure UsageTotals where
  input : Val
  output : Val
  cacheRead : Val
  cacheWrite : Val
  model : Val

def initTotals : UsageTotals :=
  { input := .num 0, output := .num 0, cacheRead := .num 0,
    cacheWrite := .num 0, model := .str ("unknown") }

/-- One iteration of the `for (const msg of messages)` loop
(hooks.ts 365–383). -/
def usageStep (t : UsageTotals) (msg : Val) : UsageTotals :=
  let t :=
    if isAssistant msg && (msg.get ("usage")).truthy then
      let u := msg.get ("usage")
      let input :=
        if (u.get ("input")).isNum then jsAdd t.input (u.get ("input"))
        else if (u.get ("inputTokens")).isNum then jsAdd t.input (u.get ("inputTokens"))
        else if (u.get ("input_tokens")).isNum then jsAdd t.input (u.get ("input_tokens"))
        else t.input
      let output :=
        if (u.get ("output")).isNum then jsAdd t.output (u.get ("output"))
        else if (u.get ("outputTokens")).isNum then jsAdd t.output (u.get ("outputTokens"))
        else if (u.get ("output_tokens")).isNum then jsAdd t.output (u.get ("output_tokens"))
        else t.output
      let cacheRead :=
        if (u.get ("cacheRead")).isNum then jsAdd t.cacheRead (u.get ("cacheRead")) else t.cacheRead
      let cacheWrite :=
        if (u.get ("cacheWrite")).isNum then jsAdd t.cacheWrite (u.get ("cacheWrite")) else t.cacheWrite
      { t with input := input, output := output, cacheRead := cacheRead, cacheWrite := cacheWrite }
    else t
  if isAssistant msg && (msg.get ("model")).truthy then { t with model := msg.get ("model") } else t

/-- Totals of the diagnostic-record branch (hooks.ts 354–362). -/
def totalsFromDiag (d : PendingUsageData) : UsageTotals :=
  { input := jsOr (d.usage.get ("input")) (.num 0),
    output := jsOr (d.usage.get ("output")) (.num 0),
    cacheRead := jsOr (d.usage.get ("cacheRead")) (.num 0),
    cacheWrite := jsOr (d.usage.get ("cacheWrite")) (.num 0),
    model := jsOr d.model (.str ("unknown")) }

/-- `getPendingUsage` (diagnostics.ts 147–153): read once, delete if found. -/
def pendingTake (m : List (Val × PendingUsageData)) (k : Val) :
    Option PendingUsageData × List (Val × PendingUsageData) :=
  match alookup m k with
  | some d => (some d, aerase m k)
  | none => (none, m)

/-- The string-or-typed-parts flattening of the content-capture block
(hooks.ts 397–404 and 410–417); `none` models the TypeError thrown by
the inner `.filter` callback on a `null`/`undefined` part. -/
def flattenContent (content : Val) : Option String :=
  match content with
  | .str t => some t
  | .arr cs =>
    if cs.any isNullOrUndef then none
    else some (String.intercalate ("\n")
      ((cs.filter (fun c => isStrV (c.get ("type")) ("text"))).map
        (fun c => jsToString (jsOr (c.get ("text")) (.str (""))))))
  | _ => some ("")

/-- Content capture (hooks.ts 390–419): yields (prompt, completion);
`none` models a TypeError (`.filter` on a non-array `messages` value, or
a null content part), which aborts the rest of the handler. -/
def captureCompute (capture : Bool) (messagesV : Val) : Option (String × String) :=
  if capture && jsGt (jsLength messagesV) (.num 0) then
    match messagesV with
    | .arr msgs =>
      let userMessages := msgs.filter (fun m => isStrV (m.get ("role")) ("user"))
      let inputC : Option String :=
        match userMessages.getLast? with
        | some lastU => flattenContent (lastU.get ("content"))
        | none => some ("")
      match inputC with
      | none => none
      | some inp =>
        let assistantMessages := msgs.filter isAssistant
        match assistantMessages.getLast? with
        | some lastA =>
          match flattenContent (lastA.get ("content")) with
          | none => none
          | some outp => some (inp, outp)
        | none => some (inp, "")
    | _ => none
  else some ("", "")

/-- `agent_end` handler (hooks.ts 332–516).  `capture` is
`config.captureContent`.  The two `match … | none => s` exits model the
TypeErrors of iterating a non-iterable `messages` value and of the
content-capture block: the surrounding catch swallows them with the
pending-usage record already consumed and nothing else changed. -/
def agentEnd (now : Nat) (capture : Bool) (s : S) (event ctx : Val) : S :=
  let sessionKey := endSessionKey event ctx
  let _agentId := jsOr (event.get ("agentId")) (jsOr (ctx.get ("agentId")) (.str ("unknown")))
  let durationMs := event.get ("durationMs")
  let success := !isFalseV (event.get ("success"))
  let errorMsg := event.get ("error")
  let (diagUsage, pm) := pendingTake s.pendingUsageMap sessionKey
  let s := { s with pendingUsageMap := pm }
  let messagesV := jsOr (event.get ("messages")) (.arr [])
  let totalsOpt : Option (UsageTotals × Val) :=
    match diagUsage with
    | some d => some (totalsFromDiag d, d.costUsd)
    | none =>
      match iterElems messagesV with
      | none => none
      | some msgs => some (msgs.foldl usageStep initTotals, .undef)
  match totalsOpt with
  | none => s
  | some (tot, costUsd) =>
    let totalTokens := jsAdd (jsAdd (jsAdd tot.input tot.output) tot.cacheRead) tot.cacheWrite
    match captureCompute capture messagesV with
    | none => s
    | some (inputContent, outputContent) =>
      let sessionCtx := alookup s.sessionContextMap sessionKey
      let s :=
        match sessionCtx with
        | some c =>
          match c.agentSpan with
          | some a =>
            let s := if durationMs.isNum then spanSetAttr s a ("openclaw.agent.duration_ms") durationMs else s
            let s := spanSetAttr s a ("gen_ai.usage.input_tokens") tot.input
            let s := spanSetAttr s a ("gen_ai.usage.output_tokens") tot.output
            let s := spanSetAttr s a ("gen_ai.usage.total_tokens") totalTokens
            let s := spanSetAttr s a ("gen_ai.response.model") tot.model
            let s := spanSetAttr s a ("openclaw.agent.success") (.bool success)
            let s := if jsGt tot.cacheRead (.num 0) then spanSetAttr s a ("gen_ai.usage.cache_read_tokens") tot.cacheRead else s
            let s := if jsGt tot.cacheWrite (.num 0) then spanSetAttr s a ("gen_ai.usage.cache_write_tokens") tot.cacheWrite else s
            let s := if costUsd.isNum then spanSetAttr s a ("openclaw.llm.cost_usd") costUsd else s
            let s :=
              match diagUsage with
              | some d =>
                let s := if ((d.context).get ("limit")).truthy then spanSetAttr s a ("openclaw.context.limit") ((d.context).get ("limit")) else s
                if ((d.context).get ("used")).truthy then spanSetAttr s a ("openclaw.context.used") ((d.context).get ("used")) else s
              | none => s
            let s := if inputContent ≠ "" then spanSetAttr s a ("gen_ai.prompt") (.str (inputContent.take 10000)) else s
            let s := if outputContent ≠ "" then spanSetAttr s a ("gen_ai.completion") (.str (outputContent.take 10000)) else s
            let s :=
              if diagUsage.isNone && (jsGt tot.input (.num 0) || jsGt tot.output (.num 0)) then
                let s := addMetric s .tokensPrompt (jsAdd (jsAdd tot.input tot.cacheRead) tot.cacheWrite)
                let s := addMetric s .tokensCompletion tot.output
                let s := addMetric s .tokensTotal totalTokens
                addMetric s .llmRequests (.num 1)
              else s
            let s := if durationMs.isNum then addMetric s .agentTurnDuration durationMs else s
            let s :=
              if errorMsg.truthy then
                let s := spanSetAttr s a ("openclaw.agent.error") (.str ((jsToString errorMsg).take 500))
                spanSetStatus s a .error (some ((jsToString errorMsg).take 200))
              else spanSetStatus s a .ok none
            spanEnd s a
          | none => s
        | none => s
      let s :=
        match sessionCtx with
        | some c =>
          if some c.rootSpan ≠ c.agentSpan then
            let s := spanSetAttr s c.rootSpan ("openclaw.request.duration_ms") (.num ((now : Int) - (c.startTime : Int)))
            let s := spanSetStatus s c.rootSpan .ok none
            spanEnd s c.rootSpan
          else s
        | none => s
      let s := { s with sessionContextMap := aerase s.sessionContextMap sessionKey }
      { s with activeAgentSpans := aerase s.activeAgentSpans sessionKey }

/-! ## Usage reconciliation (diagnostics.ts) -/

/-- `enrichSpanWithUsage` (diagnostics.ts 158–198). -/
def enrichSpanWithUsage (s : S) (sid : Nat) (data : Val) : S :=
  let usage := jsOr (data.get ("usage")) (.obj [])
  let s := if !(usage.get ("input")).isUndef then spanSetAttr s sid ("gen_ai.usage.input_tokens") (usage.get ("input")) else s
  let s := if !(usage.get ("output")).isUndef then spanSetAttr s sid ("gen_ai.usage.output_tokens") (usage.get ("output")) else s
  let s := if !(usage.get ("total")).isUndef then spanSetAttr s sid ("gen_ai.usage.total_tokens") (usage.get ("total")) else s
  let s := if !(usage.get ("cacheRead")).isUndef then spanSetAttr s sid ("gen_ai.usage.cache_read_tokens") (usage.get ("cacheRead")) else s
  let s := if !(usage.get ("cacheWrite")).isUndef then spanSetAttr s sid ("gen_ai.usage.cache_write_tokens") (usage.get ("cacheWrite")) else s
  let s := if !(data.get ("costUsd")).isUndef then spanSetAttr s sid ("openclaw.llm.cost_usd") (data.get ("costUsd")) else s
  let s := if !((data.get ("context")).get ("limit")).isUndef then spanSetAttr s sid ("openclaw.context.limit") ((data.get ("context")).get ("limit")) else s
  let s := if !((data.get ("context")).get ("used")).isUndef then spanSetAttr s sid ("openclaw.context.used") ((data.get ("context")).get ("used")) else s
  let s := if (data.get ("provider")).truthy then spanSetAttr s sid ("gen_ai.system") (data.get ("provider")) else s
  if (data.get ("model")).truthy then spanSetAttr s sid ("gen_ai.response.model") (data.get ("model")) else s

/-- The diagnostic-event listener body (diagnostics.ts 73–137): stores a
pending record, records metrics immediately, and live-attaches to a
registered agent span when one exists (consuming the record). -/
def onDiagnostic (s : S) (evt : Val) : S :=
  if !isStrV (evt.get ("type")) ("model.usage") then s
  else
    let sessionKey := jsOr (evt.get ("sessionKey")) (.str ("unknown"))
    let usage := jsOr (evt.get ("usage")) (.obj [])
    let costUsd := evt.get ("costUsd")
    let model := jsOr (evt.get ("model")) (.str ("unknown"))
    let provider := jsOr (evt.get ("provider")) (.str ("unknown"))
    let pud : PendingUsageData :=
      { costUsd := costUsd, usage := usage, context := evt.get ("context"),
        durationMs := evt.get ("durationMs"), provider := provider, model := model }
    let s := { s with pendingUsageMap := aset s.pendingUsageMap sessionKey pud }
    let s := if (usage.get ("input")).truthy then addMetric s .tokensPrompt (usage.get ("input")) else s
    let s := if (usage.get ("output")).truthy then addMetric s .tokensCompletion (usage.get ("output")) else s
    let s := if (usage.get ("cacheRead")).truthy then addMetric s .tokensPrompt (usage.get ("cacheRead")) else s
    let s := if (usage.get ("cacheWrite")).truthy then addMetric s .tokensPrompt (usage.get ("cacheWrite")) else s
    let s := if (usage.get ("total")).truthy then addMetric s .tokensTotal (usage.get ("total")) else s
    let s := if costUsd.isNum && jsGt costUsd (.num 0) then addMetric s .costUsd costUsd else s
    let s := if (evt.get ("durationMs")).isNum then addMetric s .llmDuration (evt.get ("durationMs")) else s
    let s := addMetric s .llmRequests (.num 1)
    match alookup s.activeAgentSpans sessionKey with
    | some a =>
      let s := enrichSpanWithUsage s a evt
      { s with pendingUsageMap := aerase s.pendingUsageMap sessionKey }
    | none => s

/-! ## Event-stream hooks and the reaper (hooks.ts 526–615) -/

/-- Command event handler (hooks.ts 526–566). -/
def commandEvent (s : S) (event : Val) : S :=
  let action := jsOr (event.get ("action")) (.str ("unknown"))
  let sessionKey := jsOr (event.get ("sessionKey")) (.str ("unknown"))
  let sessionCtx := alookup s.sessionContextMap sessionKey
  let parentContext : Option Nat :=
    match sessionCtx with
    | some c => c.rootContext
    | none => none
  let (s, sid) := startSpan s ("openclaw.command." ++ jsToString action) parentContext
    [("openclaw.command.action", action),
     ("openclaw.command.session_key", sessionKey),
     ("openclaw.command.source", jsOr ((event.get ("context")).get ("commandSource")) (.str ("unknown")))]
  let s :=
    if isStrV action ("new") || isStrV action ("reset") then
      addMetric s .sessionResets (.num 1)
    else s
  let s := spanSetStatus s sid .ok none
  spanEnd s sid

/-- Gateway startup handler (hooks.ts 572–593). -/
def gatewayStartup (s : S) (_event : Val) : S :=
  let (s, sid) := startSpan s ("openclaw.gateway.startup") none
    [("openclaw.event.type", .str ("gateway")),
     ("openclaw.event.action", .str ("startup"))]
  let s := spanSetStatus s sid .ok none
  spanEnd s sid

/-- The staleness threshold of the periodic cleanup (hooks.ts 601). -/
def maxAge : Nat := 5 * 60 * 1000

def isStale (now : Nat) (c : SessionTraceContext) : Bool := now - c.startTime > maxAge

/-- Force-closing one stale entry (hooks.ts 605–606). -/
def reapEntry (s : S) (c : SessionTraceContext) : S :=
  let s :=
    match c.agentSpan with
    | some a => spanEnd s a
    | none => s
  if some c.rootSpan ≠ c.agentSpan then spanEnd s c.rootSpan else s

/-- One sweep of the periodic cleanup interval (hooks.ts 599–614): every
entry older than `maxAge` has its spans force-closed and is removed from
the session context store (and from nothing else). -/
def reaperSweep (now : Nat) (s : S) : S :=
  let stale := s.sessionContextMap.filter (fun e => isStale now e.snd)
  let s := stale.foldl (fun s e => reapEntry s e.snd) s
  { s with sessionContextMap := s.sessionContextMap.filter (fun e => !isStale now e.snd) }

/-! ## Well-formed event payloads, for stating scenario claims -/

def mkCtxV (k aid : String) : Val :=
  .obj [("sessionKey", .str k), ("agentId", .str aid)]

def mkStartEvent (k aid model : String) : Val :=
  .obj [("sessionKey", .str k), ("agentId", .str aid), ("model", .str model)]

def mkToolEvent (toolName callId : String) (message : Val) : Val :=
  .obj [("toolName", .str toolName), ("toolCallId", .str callId), ("message", message)]

def mkUsage (inp outp : Int) : Val :=
  .obj [("input", .num inp), ("output", .num outp)]

def mkAssistantMsg (u : Val) : Val :=
  .obj [("role", .str ("assistant")), ("usage", u)]

def mkEndEvent (k : String) (msgs : List Val) (succ : Bool) (err : Val) (dur : Val) : Val :=
  .obj [("sessionKey", .str k), ("messages", .arr msgs),
        ("success", .bool succ), ("error", err), ("durationMs", dur)]

def mkModelUsageEvent (k : String) (usage : Val) (model provider : String) : Val :=
  .obj [("type", .str ("model.usage")), ("sessionKey", .str k),
        ("usage", usage), ("model", .str model), ("provider", .str provider)]

/-! ## Frame lemmas for the primitive operations -/

@[simp] theorem addMetric_spans (s : S) (i : Instr) (v : Val) :
    (addMetric s i v).spans = s.spans := rfl

@[simp] theorem addMetric_scm (s : S) (i : Instr) (v : Val) :
    (addMetric s i v).sessionContextMap = s.sessionContextMap := rfl

@[simp] theorem addMetric_pum (s : S) (i : Instr) (v : Val) :
    (addMetric s i v).pendingUsageMap = s.pendingUsageMap := rfl

@[simp] theorem addMetric_aas (s : S) (i : Instr) (v : Val) :
    (addMetric s i v).activeAgentSpans = s.activeAgentSpans := rfl

@[simp] theorem addMetric_nextSid (s : S) (i : Instr) (v : Val) :
    (addMetric s i v).nextSid = s.nextSid := rfl

@[simp] theorem withSpan_scm (s : S) (sid : Nat) (f : SpanData → SpanData) :
    (withSpan s sid f).sessionContextMap = s.sessionContextMap := rfl

@[simp] theorem withSpan_pum (s : S) (sid : Nat) (f : SpanData → SpanData) :
    (withSpan s sid f).pendingUsageMap = s.pendingUsageMap := rfl

@[simp] theorem withSpan_aas (s : S) (sid : Nat) (f : SpanData → SpanData) :
    (withSpan s sid f).activeAgentSpans = s.activeAgentSpans := rfl

@[simp] theorem withSpan_metricLog (s : S) (sid : Nat) (f : SpanData → SpanData) :
    (withSpan s sid f).metricLog = s.metricLog := rfl

@[simp] theorem withSpan_nextSid (s : S) (sid : Nat) (f : SpanData → SpanData) :
    (withSpan s sid f).nextSid = s.nextSid := rfl

@[simp] theorem withSpan_spans (s : S) (sid : Nat) (f : SpanData → SpanData) :
    (withSpan s sid f).spans = s.spans.map (fun sp => if sp.sid = sid then f sp else sp) := rfl

@[simp] theorem spanSetAttr_scm (s : S) (sid : Nat) (k : String) (v : Val) :
    (spanSetAttr s sid k v).sessionContextMap = s.sessionContextMap := rfl

@[simp] theorem spanSetAttr_pum (s : S) (sid : Nat) (k : String) (v : Val) :
    (spanSetAttr s sid k v).pendingUsageMap = s.pendingUsageMap := rfl

@[simp] theorem spanSetAttr_aas (s : S) (sid : Nat) (k : String) (v : Val) :
    (spanSetAttr s sid k v).activeAgentSpans = s.activeAgentSpans := rfl

@[simp] theorem spanSetAttr_metricLog (s : S) (sid : Nat) (k : String) (v : Val) :
    (spanSetAttr s sid k v).metricLog = s.metricLog := rfl

@[simp] theorem spanSetAttr_nextSid (s : S) (sid : Nat) (k : String) (v : Val) :
    (spanSetAttr s sid k v).nextSid = s.nextSid := rfl

@[simp] theorem spanSetStatus_scm (s : S) (sid : Nat) (c : StatusCode) (m : Option String) :
    (spanSetStatus s sid c m).sessionContextMap = s.sessionContextMap := rfl

@[simp] theorem spanSetStatus_pum (s : S) (sid : Nat) (c : StatusCode) (m : Option String) :
    (spanSetStatus s sid c m).pendingUsageMap = s.pendingUsageMap := rfl

@[simp] theorem spanSetStatus_aas (s : S) (sid : Nat) (c : StatusCode) (m : Option String) :
    (spanSetStatus s sid c m).activeAgentSpans = s.activeAgentSpans := rfl

@[simp] theorem spanSetStatus_metricLog (s : S) (sid : Nat) (c : StatusCode) (m : Option String) :
    (spanSetStatus s sid c m).metricLog = s.metricLog := rfl

@[simp] theorem spanSetStatus_nextSid (s : S) (sid : Nat) (c : StatusCode) (m : Option String) :
    (spanSetStatus s sid c m).nextSid = s.nextSid := rfl

@[simp] theorem spanEnd_scm (s : S) (sid : Nat) :
    (spanEnd s sid).sessionContextMap = s.sessionContextMap := rfl

@[simp] theorem spanEnd_pum (s : S) (sid : Nat) :
    (spanEnd s sid).pendingUsageMap = s.pendingUsageMap := rfl

@[simp] theorem spanEnd_aas (s : S) (sid : Nat) :
    (spanEnd s sid).activeAgentSpans = s.activeAgentSpans := rfl

@[simp] theorem spanEnd_metricLog (s : S) (sid : Nat) :
    (spanEnd s sid).metricLog = s.metricLog := rfl

@[simp] theorem spanEnd_nextSid (s : S) (sid : Nat) :
    (spanEnd s sid).nextSid = s.nextSid := rfl

@[simp] theorem enrich_scm (s : S) (sid : Nat) (d : Val) :
    (enrichSpanWithUsage s sid d).sessionContextMap = s.sessionContextMap := by
  simp [enrichSpanWithUsage, apply_ite S.sessionContextMap]

/-- All span identifiers in the store are below the allocation counter. -/
def SidsOk (s : S) : Prop := ∀ q ∈ s.spans, q.sid < s.nextSid

theorem sidsOk_init : SidsOk initState := by intro q hq; simp [initState] at hq

/-- Updating a just-appended fresh span leaves the older spans alone. -/
theorem update_append (l : List SpanData) (sp : SpanData) (f : SpanData → SpanData)
    (h : ∀ q ∈ l, q.sid ≠ sp.sid) :
    (l ++ [sp]).map (fun q => if q.sid = sp.sid then f q else q) = l ++ [f sp] := by
  induction l with
  | nil => simp
  | cons hd tl ih =>
    have h1 : hd.sid ≠ sp.sid := h hd (by simp)
    have h2 : ∀ q ∈ tl, q.sid ≠ sp.sid := fun q hq => h q (by simp [hq])
    simp [h1, ih h2]

/-- Updating a span that is not in the list is a no-op. -/
theorem update_absent (l : List SpanData) (sid : Nat) (f : SpanData → SpanData)
    (h : ∀ q ∈ l, q.sid ≠ sid) :
    l.map (fun q => if q.sid = sid then f q else q) = l := by
  induction l with
  | nil => simp
  | cons hd tl ih =>
    have h1 : hd.sid ≠ sid := h hd (by simp)
    have h2 : ∀ q ∈ tl, q.sid ≠ sid := fun q hq => h q (by simp [hq])
    simp [h1, ih h2]

@[simp] theorem attrLookup_set_self (l : List (String × Val)) (k : String) (v : Val) :
    attrLookup (setAttrL l k v) k = some v := by
  induction l with
  | nil => simp [setAttrL, attrLookup]
  | cons hd tl ih =>
    by_cases h : (hd.fst == k) = true
    · simp [setAttrL, attrLookup, h]
    · simp only [setAttrL]
      rw [if_neg h]
      simpa [attrLookup, h] using ih

theorem attrLookup_set_ne (l : List (String × Val)) (k j : String) (v : Val)
    (h : j ≠ k) : attrLookup (setAttrL l k v) j = attrLookup l j := by
  induction l with
  | nil => simp [setAttrL, attrLookup, h, Ne.symm h]
  | cons hd tl ih =>
    by_cases hk : (hd.fst == k) = true
    · have hj : ¬ (hd.fst == j) = true := by
        intro hj
        exact h ((eq_of_beq hj).symm.trans (eq_of_beq hk))
      simp [setAttrL, attrLookup, hk, hj]
    · simp only [setAttrL]
      rw [if_neg hk]
      by_cases hj : (hd.fst == j) = true
      · simp [attrLookup, hj]
      · simpa [attrLookup, hj] using ih

theorem findSpan_map_ne (l : List SpanData) (sid other : Nat) (f : SpanData → SpanData)
    (hf : ∀ q, (f q).sid = q.sid) (h : other ≠ sid) :
    (l.map (fun q => if q.sid = sid then f q else q)).find? (fun sp => sp.sid = other)
      = l.find? (fun sp => sp.sid = other) := by
  induction l with
  | nil => rfl
  | cons hd tl ih =>
    have hso : ¬ (sid = other) := fun e => h e.symm
    simp only [List.map_cons]
    by_cases hh : hd.sid = sid
    · rw [if_pos hh]
      have hne : ¬ ((f hd).sid = other) := by rw [hf hd, hh]; exact hso
      have hne2 : ¬ (hd.sid = other) := by rw [hh]; exact hso
      simp [List.find?, hne, hne2, ih]
    · rw [if_neg hh]
      by_cases ho : hd.sid = other
      · simp [List.find?, ho]
      · simp [List.find?, ho, ih]

/-! ## Lookup lemmas for span attributes through the handler operations -/

@[simp] theorem spans_ite (c : Prop) [Decidable c] (a b : S) :
    (if c then a else b).spans = if c then a.spans else b.spans := by
  split <;> rfl

@[simp] theorem scm_ite (c : Prop) [Decidable c] (a b : S) :
    (if c then a else b).sessionContextMap = if c then a.sessionContextMap else b.sessionContextMap := by
  split <;> rfl

@[simp] theorem pum_ite (c : Prop) [Decidable c] (a b : S) :
    (if c then a else b).pendingUsageMap = if c then a.pendingUsageMap else b.pendingUsageMap := by
  split <;> rfl

@[simp] theorem aas_ite (c : Prop) [Decidable c] (a b : S) :
    (if c then a else b).activeAgentSpans = if c then a.activeAgentSpans else b.activeAgentSpans := by
  split <;> rfl

@[simp] theorem metricLog_ite (c : Prop) [Decidable c] (a b : S) :
    (if c then a else b).metricLog = if c then a.metricLog else b.metricLog := by
  split <;> rfl

@[simp] theorem nextSid_ite (c : Prop) [Decidable c] (a b : S) :
    (if c then a else b).nextSid = if c then a.nextSid else b.nextSid := by
  split <;> rfl

@[simp] theorem spanAttr_ite (c : Prop) [Decidable c] (a b : S) (sid : Nat) (j : String) :
    spanAttr (if c then a else b) sid j = if c then spanAttr a sid j else spanAttr b sid j := by
  split <;> rfl

@[simp] theorem spanAttr_addMetric (s : S) (i : Instr) (v : Val) (sid : Nat) (j : String) :
    spanAttr (addMetric s i v) sid j = spanAttr s sid j := rfl

theorem find_update_self (l : List SpanData) (sid : Nat) (f : SpanData → SpanData)
    (hf : ∀ q, (f q).sid = q.sid) :
    (l.map (fun q => if q.sid = sid then f q else q)).find? (fun sp => sp.sid = sid)
      = (l.find? (fun sp => sp.sid = sid)).map f := by
  induction l with
  | nil => rfl
  | cons hd tl ih =>
    simp only [List.map_cons]
    by_cases hh : hd.sid = sid
    · rw [if_pos hh]
      have hfs : (f hd).sid = sid := by rw [hf hd, hh]
      simp [List.find?, hfs, hh]
    · rw [if_neg hh]
      simp [List.find?, hh, ih]

/-- Lookup on a span not targeted by a `withSpan` update. -/
theorem spanAttr_withSpan_other (s : S) (sid : Nat) (f : SpanData → SpanData)
    (sid' : Nat) (j : String) (hf : ∀ q, (f q).sid = q.sid) (h : sid' ≠ sid) :
    spanAttr (withSpan s sid f) sid' j = spanAttr s sid' j := by
  unfold spanAttr findSpan
  rw [withSpan_spans, findSpan_map_ne s.spans sid sid' f hf h]

/-- Lookup through a `withSpan` update that does not touch attributes. -/
theorem spanAttr_withSpan_keep (s : S) (sid : Nat) (f : SpanData → SpanData)
    (sid' : Nat) (j : String) (hf : ∀ q, (f q).sid = q.sid)
    (ha : ∀ q, (f q).attrs = q.attrs) :
    spanAttr (withSpan s sid f) sid' j = spanAttr s sid' j := by
  by_cases h : sid' = sid
  · subst h
    unfold spanAttr findSpan
    rw [withSpan_spans, find_update_self s.spans sid' f hf]
    cases hm : s.spans.find? (fun sp => sp.sid = sid') with
    | none => rfl
    | some sp => simp [ha sp]
  · exact spanAttr_withSpan_other s sid f sid' j hf h

@[simp] theorem spanAttr_setStatus (s : S) (sid : Nat) (c : StatusCode) (m : Option String)
    (sid' : Nat) (j : String) :
    spanAttr (spanSetStatus s sid c m) sid' j = spanAttr s sid' j :=
  spanAttr_withSpan_keep s sid _ sid' j (fun _ => rfl) (fun _ => rfl)

@[simp] theorem spanAttr_spanEnd (s : S) (sid : Nat) (sid' : Nat) (j : String) :
    spanAttr (spanEnd s sid) sid' j = spanAttr s sid' j :=
  spanAttr_withSpan_keep s sid _ sid' j (fun _ => rfl) (fun _ => rfl)

theorem spanAttr_setAttr_other (s : S) (sid : Nat) (k : String) (v : Val)
    (sid' : Nat) (j : String) (h : sid' ≠ sid) :
    spanAttr (spanSetAttr s sid k v) sid' j = spanAttr s sid' j :=
  spanAttr_withSpan_other s sid _ sid' j (fun _ => rfl) h

theorem spanAttr_setAttr_ne (s : S) (sid : Nat) (k : String) (v : Val)
    (sid' : Nat) (j : String) (h : j ≠ k) :
    spanAttr (spanSetAttr s sid k v) sid' j = spanAttr s sid' j := by
  by_cases hs : sid' = sid
  · subst hs
    unfold spanAttr findSpan
    simp only [spanSetAttr, withSpan_spans]
    rw [find_update_self s.spans sid'
      (fun sp => { sp with attrs := setAttrL sp.attrs k v }) (fun _ => rfl)]
    cases hm : s.spans.find? (fun sp => sp.sid = sid') with
    | none => rfl
    | some sp => simp [attrLookup_set_ne sp.attrs k j v h]
  · exact spanAttr_setAttr_other s sid k v sid' j hs

theorem findSpan_withSpan_isSome (s : S) (sid' : Nat) (f : SpanData → SpanData)
    (sid : Nat) (hf : ∀ q, (f q).sid = q.sid) :
    (findSpan (withSpan s sid' f) sid).isSome = (findSpan s sid).isSome := by
  by_cases h : sid = sid'
  · subst h
    unfold findSpan
    rw [withSpan_spans, find_update_self s.spans sid f hf]
    cases s.spans.find? (fun sp => sp.sid = sid) <;> rfl
  · unfold findSpan
    rw [withSpan_spans, findSpan_map_ne s.spans sid' sid f hf h]

@[simp] theorem findSpan_addMetric (s : S) (i : Instr) (v : Val) (sid : Nat) :
    findSpan (addMetric s i v) sid = findSpan s sid := rfl

@[simp] theorem findSpan_isSome_setAttr (s : S) (sid' : Nat) (k : String) (v : Val) (sid : Nat) :
    (findSpan (spanSetAttr s sid' k v) sid).isSome = (findSpan s sid).isSome :=
  findSpan_withSpan_isSome s sid' _ sid (fun _ => rfl)

@[simp] theorem findSpan_isSome_setStatus (s : S) (sid' : Nat) (c : StatusCode)
    (m : Option String) (sid : Nat) :
    (findSpan (spanSetStatus s sid' c m) sid).isSome = (findSpan s sid).isSome :=
  findSpan_withSpan_isSome s sid' _ sid (fun _ => rfl)

@[simp] theorem findSpan_isSome_spanEnd (s : S) (sid' : Nat) (sid : Nat) :
    (findSpan (spanEnd s sid') sid).isSome = (findSpan s sid).isSome :=
  findSpan_withSpan_isSome s sid' _ sid (fun _ => rfl)

@[simp] theorem findSpan_isSome_ite (c : Prop) [Decidable c] (a b : S) (sid : Nat) :
    (findSpan (if c then a else b) sid).isSome
      = if c then (findSpan a sid).isSome else (findSpan b sid).isSome := by
  split <;> rfl

theorem spanAttr_setAttr_self (s : S) (sid : Nat) (k : String) (v : Val)
    (h : (findSpan s sid).isSome) :
    spanAttr (spanSetAttr s sid k v) sid k = some v := by
  unfold spanAttr findSpan
  simp only [spanSetAttr, withSpan_spans]
  rw [find_update_self s.spans sid
    (fun sp => { sp with attrs := setAttrL sp.attrs k v }) (fun _ => rfl)]
  unfold findSpan at h
  cases hm : s.spans.find? (fun sp => sp.sid = sid) with
  | none => rw [hm] at h; simp at h
  | some sp => simp [attrLookup_set_self sp.attrs k v]

/-- List-level form of `spanAttr`, used to let semi-concrete scenario
states evaluate under `simp`. -/
def spansAttr (l : List SpanData) (sid : Nat) (j : String) : Option Val :=
  match l.find? (fun sp => sp.sid = sid) with
  | some sp => attrLookup sp.attrs j
  | none => none

theorem spanAttr_def (s : S) (sid : Nat) (j : String) :
    spanAttr s sid j = spansAttr s.spans sid j := rfl

@[simp] theorem spansAttr_ite (c : Prop) [Decidable c] (a b : List SpanData)
    (sid : Nat) (j : String) :
    spansAttr (if c then a else b) sid j
      = if c then spansAttr a sid j else spansAttr b sid j := by
  split <;> rfl

@[simp] theorem spansAttr_nil (sid : Nat) (j : String) : spansAttr [] sid j = none := rfl

@[simp] theorem spansAttr_cons (sp : SpanData) (l : List SpanData) (sid : Nat) (j : String) :
    spansAttr (sp :: l) sid j
      = if sp.sid = sid then attrLookup sp.attrs j else spansAttr l sid j := by
  by_cases h : sp.sid = sid <;> simp [spansAttr, List.find?, h]

@[simp] theorem map_ite_list (c : Prop) [Decidable c] {α β : Type} (f : α → β)
    (a b : List α) :
    (if c then a else b).map f = if c then a.map f else b.map f := by
  split <;> rfl

@[simp] theorem attrLookup_ite (c : Prop) [Decidable c] (a b : List (String × Val)) (j : String) :
    attrLookup (if c then a else b) j = if c then attrLookup a j else attrLookup b j := by
  split <;> rfl

@[simp] theorem setAttrL_ite (c : Prop) [Decidable c] (a b : List (String × Val))
    (k : String) (v : Val) :
    setAttrL (if c then a else b) k v = if c then setAttrL a k v else setAttrL b k v := by
  split <;> rfl

/-- List-level form of `countInstr`. -/
def logCount (l : List (Instr × Val)) (i : Instr) : Nat :=
  (l.filter (fun e => e.fst = i)).length

theorem countInstr_def (s : S) (i : Instr) : countInstr s i = logCount s.metricLog i := rfl

@[simp] theorem logCount_ite (c : Prop) [Decidable c] (a b : List (Instr × Val)) (i : Instr) :
    logCount (if c then a else b) i = if c then logCount a i else logCount b i := by
  split <;> rfl

@[simp] theorem logCount_append (a b : List (Instr × Val)) (i : Instr) :
    logCount (a ++ b) i = logCount a i + logCount b i := by
  simp [logCount, List.filter_append]

/-! ## C2 — usage metrics exactly once per turn -/

/-- The C2 failing execution: turn-start; a `model.usage` diagnostic
event arriving while the agent span is live (so the listener records the
metrics, attaches the record to the live span and deletes the pending
record); turn-end whose transcript carries the same usage numbers. -/
def c2AfterStart : S :=
  beforeAgentStart 0 initState (mkStartEvent ("s1") ("a1") ("m")) (mkCtxV ("s1") ("a1"))

def c2AfterDiag : S :=
  onDiagnostic c2AfterStart
    (mkModelUsageEvent ("s1")
      (.obj [("input", .num 10), ("output", .num 5), ("total", .num 15)]) ("m5") ("p"))

def c2AfterEnd : S :=
  agentEnd 100 false c2AfterDiag
    (mkEndEvent ("s1") [mkAssistantMsg (mkUsage 10 5)] true .undef (.num 42))
    (mkCtxV ("s1") ("a1"))

/-- C2: the claim states that the prompt/completion/total token counters
and the LLM-request counter are recorded exactly once per turn whichever
source supplied the data.  The code violates this: when the side-channel
record arrives while the agent span is live, the diagnostics listener
records the metrics and consumes the pending record, so the turn-end
handler sees no `PendingUsageRecord` and records the transcript-derived
numbers a second time.  After the turn each counter received two adds
(the diagnostic event alone had produced exactly one). -/
theorem C2_usage_metrics_double_recorded :
    countInstr c2AfterEnd .llmRequests = 2 ∧
    countInstr c2AfterEnd .tokensPrompt = 2 ∧
    countInstr c2AfterEnd .tokensCompletion = 2 ∧
    countInstr c2AfterEnd .tokensTotal = 2 ∧
    countInstr c2AfterDiag .llmRequests = 1 ∧
    alookup c2AfterDiag.pendingUsageMap (.str ("s1")) = none := by
  refine ⟨?_, ?_, ?_, ?_, ?_, ?_⟩ <;> rfl

/-! ## C5 — sequential turns and the root span -/

/-- C5 counterexample states: a second turn-start after the first turn
completed (turn-end processed). -/
def c5First : S :=
  beforeAgentStart 0 initState (mkStartEvent ("s1") ("a1") ("m")) (mkCtxV ("s1") ("a1"))

def c5AfterEnd : S :=
  agentEnd 10 false c5First (mkEndEvent ("s1") [] true .undef .undef) (mkCtxV ("s1") ("a1"))

def c5Second : S :=
  beforeAgentStart 20 c5AfterEnd (mkStartEvent ("s1") ("a1") ("m")) (mkCtxV ("s1") ("a1"))

/-- C5 counterexample: the claim says a second turn-start after the first
turn completed reuses the same root span.  In the code `agent_end`
deletes the session context, so the second turn-start creates a second
root span: after start–end–start there are two `openclaw.request` spans,
the first one is already ended, and the stored context now references
the new root (span 2), not the original root (span 0). -/
theorem C5_counterexample_new_root_after_turn_end :
    (c5Second.spans.filter (fun sp => sp.name = "openclaw.request")).length = 2 ∧
    (alookup c5Second.sessionContextMap (.str ("s1"))).map SessionTraceContext.rootSpan
      = some 2 ∧
    (findSpan c5Second 0).map SpanData.endCount = some 1 := by
  refine ⟨?_, ?_, ?_⟩ <;> rfl

/-- C5 (amended): two sequential turns whose second turn-start arrives
while the first turn's context is still present (no intervening turn-end
for the session key) reuse the same root span and produce two distinct
agent-turn spans, both children of that single root span.  (After a
turn-end the context is deleted and a later turn-start creates a fresh
root, see the counterexample.) -/
theorem C5_amended_root_reused_within_open_session (k aid1 m1 aid2 m2 : String)
    (t1 t2 : Nat) (hk : k ≠ "") :
    ((beforeAgentStart t2 (beforeAgentStart t1 initState (mkStartEvent k aid1 m1) (mkCtxV k aid1))
        (mkStartEvent k aid2 m2) (mkCtxV k aid2)).spans.filter
      (fun sp => sp.name = "openclaw.request")).length = 1 ∧
    ((beforeAgentStart t2 (beforeAgentStart t1 initState (mkStartEvent k aid1 m1) (mkCtxV k aid1))
        (mkStartEvent k aid2 m2) (mkCtxV k aid2)).spans.filter
      (fun sp => sp.name = "openclaw.agent.turn")).map SpanData.sid = [1, 2] ∧
    ((beforeAgentStart t2 (beforeAgentStart t1 initState (mkStartEvent k aid1 m1) (mkCtxV k aid1))
        (mkStartEvent k aid2 m2) (mkCtxV k aid2)).spans.filter
      (fun sp => sp.name = "openclaw.agent.turn")).map SpanData.parent = [some 0, some 0] := by
  have hs : (Val.str k).truthy = true := by simp [Val.truthy, hk]
  refine ⟨?_, ?_, ?_⟩ <;>
    simp [beforeAgentStart, mkStartEvent, mkCtxV, Val.get, jsOr, hs, List.find?,
      initState, startSpan, alookup, aset, Val.beq_refl']

/-! ## C7 — host-reported total versus the sum of categories -/

/-- A `model.usage` record whose host-reported total (100) differs from
the sum of its categories (15), delivered before turn-start so that it is
still pending at turn-end. -/
def c7AfterDiag : S :=
  onDiagnostic initState
    (mkModelUsageEvent ("s1")
      (.obj [("input", .num 10), ("output", .num 5), ("total", .num 100)]) ("m5") ("p"))

def c7AfterStart : S :=
  beforeAgentStart 0 c7AfterDiag (mkStartEvent ("s1") ("a1") ("m")) (mkCtxV ("s1") ("a1"))

def c7AfterEnd : S :=
  agentEnd 100 false c7AfterStart
    (mkEndEvent ("s1") [] true .undef (.num 42)) (mkCtxV ("s1") ("a1"))

/-- C7 counterexample: the claim says the `total_tokens` attribute equals
the host-reported total when the usage data attached at turn-end carries
one.  The code ignores `usage.total` in the `agent_end` handler and
always attaches the sum of the four categories: with a pending record
carrying total 100 but categories summing to 15, the attached attribute
is 15. -/
theorem C7_counterexample_turn_end_ignores_host_total :
    (alookup c7AfterStart.pendingUsageMap (.str ("s1"))).isSome = true ∧
    (alookup c7AfterStart.pendingUsageMap (.str ("s1"))).map
      (fun d => d.usage.get ("total")) = some (.num 100) ∧
    spanAttr c7AfterEnd 1 ("gen_ai.usage.total_tokens") = some (.num 15) := by
  refine ⟨?_, ?_, ?_⟩ <;> rfl

/-- The sum of the four token categories of a pending record, with the
JavaScript defaulting and addition the `agent_end` handler performs. -/
def sumOfFourCategories (r : PendingUsageData) : Val :=
  jsAdd (jsAdd (jsAdd (jsOr (r.usage.get ("input")) (.num 0))
    (jsOr (r.usage.get ("output")) (.num 0)))
    (jsOr (r.usage.get ("cacheRead")) (.num 0)))
    (jsOr (r.usage.get ("cacheWrite")) (.num 0))

/-- C7 (amended): at turn-end the `total_tokens` attribute on the agent
span always equals the sum of the four token categories of the consumed
record, never the host-reported total; the host-reported total is used
only by the live-span enrichment path (`enrichSpanWithUsage`), which
attaches it whenever the record defines one. -/
theorem C7_amended_sum_at_turn_end_host_total_only_live :
    (∀ (k aid m : String), k ≠ "" → ∀ (r : PendingUsageData) (succ : Bool) (d : Int),
      spanAttr
        (agentEnd 7 false
          ({ beforeAgentStart 0 initState (mkStartEvent k aid m) (mkCtxV k aid) with
             pendingUsageMap := [(.str k, r)] })
          (mkEndEvent k [] succ .undef (.num d)) (mkCtxV k aid))
        1 ("gen_ai.usage.total_tokens") = some (sumOfFourCategories r)) ∧
    (∀ (s : S) (sid : Nat) (dv : Val),
      (findSpan s sid).isSome →
      ((jsOr (dv.get ("usage")) (.obj [])).get ("total")).isUndef = false →
      spanAttr (enrichSpanWithUsage s sid dv) sid ("gen_ai.usage.total_tokens")
        = some ((jsOr (dv.get ("usage")) (.obj [])).get ("total"))) := by
  constructor
  · intro k aid m hk r succ d
    have hs : (Val.str k).truthy = true := by simp [Val.truthy, hk]
    simp [agentEnd, endSessionKey, beforeAgentStart, mkStartEvent, mkEndEvent, mkCtxV, Val.get,
      jsOr, hs, hk, List.find?, initState, startSpan, alookup, aset, aerase,
      Val.beq_refl', pendingTake, totalsFromDiag, iterElems, captureCompute,
      sumOfFourCategories, Val.isNum, Val.truthy, spanAttr_def,
      spanSetAttr, spanSetStatus, spanEnd, withSpan, attrLookup, setAttrL]
  · intro s sid dv hsome htot
    simp [enrichSpanWithUsage, htot, spanAttr_setAttr_ne, spanAttr_setAttr_self, hsome]

/-- Witness for the amended C7 theorem: both conjuncts applied at
concrete inputs. -/
theorem C7_amended_witness :
    spanAttr
      (agentEnd 7 false
        ({ beforeAgentStart 0 initState (mkStartEvent ("s1") ("a1") ("m")) (mkCtxV ("s1") ("a1")) with
           pendingUsageMap := [(.str ("s1"),
             { costUsd := .undef,
               usage := .obj [("input", .num 10), ("output", .num 5), ("total", .num 100)],
               context := .undef, durationMs := .undef, provider := .str ("p"),
               model := .str ("m5") })] })
        (mkEndEvent ("s1") [] true .undef (.num 42)) (mkCtxV ("s1") ("a1")))
      1 ("gen_ai.usage.total_tokens") = some (.num 15) := by
  have h := C7_amended_sum_at_turn_end_host_total_only_live.1 ("s1") ("a1") ("m")
    (by decide)
    { costUsd := .undef,
      usage := .obj [("input", .num 10), ("output", .num 5), ("total", .num 100)],
      context := .undef, durationMs := .undef, provider := .str ("p"),
      model := .str ("m5") } true 42
  simpa [sumOfFourCategories] using h

/-! ## C3 — a pending record overrides the transcript -/

set_option maxHeartbeats 3200000 in
/-- C3: at a turn-end for which a `PendingUsageRecord` exists, the agent
span's usage, cost, model and context-window attributes are taken from
the record's values — the right-hand sides below mention only the record
`r`, never the transcript `msgs`, which remains fully arbitrary (it may
itself carry usage fields). -/
theorem C3_pending_record_overrides_transcript (k aid m : String) (hk : k ≠ "")
    (r : PendingUsageData) (msgs : List Val) (succ : Bool) (d : Int) :
    let s2 := agentEnd 7 false
      ({ beforeAgentStart 0 initState (mkStartEvent k aid m) (mkCtxV k aid) with
         pendingUsageMap := [(.str k, r)] })
      (mkEndEvent k msgs succ .undef (.num d)) (mkCtxV k aid)
    spanAttr s2 1 ("gen_ai.usage.input_tokens") = some (jsOr (r.usage.get ("input")) (.num 0)) ∧
    spanAttr s2 1 ("gen_ai.usage.output_tokens") = some (jsOr (r.usage.get ("output")) (.num 0)) ∧
    spanAttr s2 1 ("gen_ai.response.model") = some (jsOr r.model (.str ("unknown"))) ∧
    (r.costUsd.isNum = true →
      spanAttr s2 1 ("openclaw.llm.cost_usd") = some r.costUsd) ∧
    (jsGt (jsOr (r.usage.get ("cacheRead")) (.num 0)) (.num 0) = true →
      spanAttr s2 1 ("gen_ai.usage.cache_read_tokens")
        = some (jsOr (r.usage.get ("cacheRead")) (.num 0))) ∧
    (jsGt (jsOr (r.usage.get ("cacheWrite")) (.num 0)) (.num 0) = true →
      spanAttr s2 1 ("gen_ai.usage.cache_write_tokens")
        = some (jsOr (r.usage.get ("cacheWrite")) (.num 0))) ∧
    ((r.context.get ("limit")).truthy = true →
      spanAttr s2 1 ("openclaw.context.limit") = some (r.context.get ("limit"))) ∧
    ((r.context.get ("used")).truthy = true →
      spanAttr s2 1 ("openclaw.context.used") = some (r.context.get ("used"))) := by
  have hs : (Val.str k).truthy = true := by simp [Val.truthy, hk]
  refine ⟨?_, ?_, ?_, ?_, ?_, ?_, ?_, ?_⟩ <;>
    first
    | (intro hc
       try simp [jsOr, Val.get, Val.isNum, Val.truthy, List.find?] at hc
       simp [agentEnd, endSessionKey, beforeAgentStart, mkStartEvent, mkEndEvent, mkCtxV, Val.get,
         jsOr, hs, hk, hc, List.find?, initState, startSpan, alookup, aset, aerase,
         Val.beq_refl', pendingTake, totalsFromDiag, iterElems, captureCompute,
         Val.isNum, Val.truthy, spanAttr_def,
         spanSetAttr, spanSetStatus, spanEnd, withSpan, attrLookup, setAttrL])
    | simp [agentEnd, endSessionKey, beforeAgentStart, mkStartEvent, mkEndEvent, mkCtxV, Val.get,
        jsOr, hs, hk, List.find?, initState, startSpan, alookup, aset, aerase,
        Val.beq_refl', pendingTake, totalsFromDiag, iterElems, captureCompute,
        Val.isNum, Val.truthy, spanAttr_def,
        spanSetAttr, spanSetStatus, spanEnd, withSpan, attrLookup, setAttrL]

/-- Witness for C3: a record with input 10 wins over a transcript whose
assistant message claims input 99. -/
theorem C3_witness :
    spanAttr
      (agentEnd 7 false
        ({ beforeAgentStart 0 initState (mkStartEvent ("s1") ("a1") ("m")) (mkCtxV ("s1") ("a1")) with
           pendingUsageMap := [(.str ("s1"),
             { costUsd := .num 3,
               usage := .obj [("input", .num 10), ("output", .num 5)],
               context := .undef, durationMs := .undef, provider := .str ("p"),
               model := .str ("m5") })] })
        (mkEndEvent ("s1") [mkAssistantMsg (mkUsage 99 77)] true .undef (.num 42))
        (mkCtxV ("s1") ("a1")))
      1 ("gen_ai.usage.input_tokens") = some (.num 10) := by
  have h := (C3_pending_record_overrides_transcript ("s1") ("a1") ("m") (by decide)
    { costUsd := .num 3,
      usage := .obj [("input", .num 10), ("output", .num 5)],
      context := .undef, durationMs := .undef, provider := .str ("p"),
      model := .str ("m5") } [mkAssistantMsg (mkUsage 99 77)] true 42).1
  simpa using h

/-! ## C4 — transcript fallback sums over all assistant messages -/

/-- Integer payload of a `Val`, when it is a plain number. -/
def numVal : Val → Option Int
  | .num n => some n
  | _ => none

/-- A usage field that is not NaN (NaN passes the source's `typeof`
check but is not an integer; the C4 statement is restricted to
transcripts whose usage fields are proper numbers). -/
def fieldOk : Val → Bool
  | .nan => false
  | _ => true

def msgUsageOk (m : Val) : Bool :=
  fieldOk ((m.get ("usage")).get ("input")) &&
  fieldOk ((m.get ("usage")).get ("inputTokens")) &&
  fieldOk ((m.get ("usage")).get ("input_tokens")) &&
  fieldOk ((m.get ("usage")).get ("output")) &&
  fieldOk ((m.get ("usage")).get ("outputTokens")) &&
  fieldOk ((m.get ("usage")).get ("output_tokens")) &&
  fieldOk ((m.get ("usage")).get ("cacheRead")) &&
  fieldOk ((m.get ("usage")).get ("cacheWrite"))

/-- Spec-side per-message contribution: the input tokens an assistant
message carries (first accepted spelling), 0 for other messages. -/
def msgInputTokens (m : Val) : Int :=
  if isAssistant m && (m.get ("usage")).truthy then
    match numVal ((m.get ("usage")).get ("input")) with
    | some n => n
    | none =>
      match numVal ((m.get ("usage")).get ("inputTokens")) with
      | some n => n
      | none =>
        match numVal ((m.get ("usage")).get ("input_tokens")) with
        | some n => n
        | none => 0
  else 0

def msgOutputTokens (m : Val) : Int :=
  if isAssistant m && (m.get ("usage")).truthy then
    match numVal ((m.get ("usage")).get ("output")) with
    | some n => n
    | none =>
      match numVal ((m.get ("usage")).get ("outputTokens")) with
      | some n => n
      | none =>
        match numVal ((m.get ("usage")).get ("output_tokens")) with
        | some n => n
        | none => 0
  else 0

def msgCacheReadTokens (m : Val) : Int :=
  if isAssistant m && (m.get ("usage")).truthy then
    match numVal ((m.get ("usage")).get ("cacheRead")) with
    | some n => n
    | none => 0
  else 0

def msgCacheWriteTokens (m : Val) : Int :=
  if isAssistant m && (m.get ("usage")).truthy then
    match numVal ((m.get ("usage")).get ("cacheWrite")) with
    | some n => n
    | none => 0
  else 0

/-- Spec-side sums over the whole transcript (non-assistant messages
contribute 0). -/
def sumInputTokens (msgs : List Val) : Int := (msgs.map msgInputTokens).sum

def sumOutputTokens (msgs : List Val) : Int := (msgs.map msgOutputTokens).sum

def sumCacheReadTokens (msgs : List Val) : Int := (msgs.map msgCacheReadTokens).sum

def sumCacheWriteTokens (msgs : List Val) : Int := (msgs.map msgCacheWriteTokens).sum

@[simp] theorem totals_input_ite (c : Prop) [Decidable c] (a b : UsageTotals) :
    (if c then a else b).input = if c then a.input else b.input := by split <;> rfl

@[simp] theorem totals_output_ite (c : Prop) [Decidable c] (a b : UsageTotals) :
    (if c then a else b).output = if c then a.output else b.output := by split <;> rfl

@[simp] theorem totals_cacheRead_ite (c : Prop) [Decidable c] (a b : UsageTotals) :
    (if c then a else b).cacheRead = if c then a.cacheRead else b.cacheRead := by split <;> rfl

@[simp] theorem totals_cacheWrite_ite (c : Prop) [Decidable c] (a b : UsageTotals) :
    (if c then a else b).cacheWrite = if c then a.cacheWrite else b.cacheWrite := by split <;> rfl

theorem jsAdd_num (a b : Int) : jsAdd (.num a) (.num b) = .num (a + b) := rfl

@[simp] theorem numVal_num (n : Int) : numVal (.num n) = some n := rfl

@[simp] theorem isNum_num (n : Int) : (Val.num n).isNum = true := rfl

theorem exists_num_of_isNum_ok (v : Val) (h1 : v.isNum = true) (h2 : fieldOk v = true) :
    ∃ x, v = .num x := by
  cases v <;> first | exact ⟨_, rfl⟩ | simp_all [Val.isNum, fieldOk]

theorem numVal_eq_none (v : Val) (h1 : v.isNum = false) : numVal v = none := by
  cases v <;> simp_all [Val.isNum, numVal]

theorem usageStep_input (t : UsageTotals) (m : Val) (a : Int) (ha : t.input = .num a)
    (hm : msgUsageOk m = true) :
    (usageStep t m).input = .num (a + msgInputTokens m) := by
  simp only [msgUsageOk, Bool.and_eq_true, and_assoc] at hm
  obtain ⟨h1, h2, h3, h4, h5, h6, h7, h8⟩ := hm
  unfold usageStep msgInputTokens
  by_cases hA : (isAssistant m && (m.get ("usage")).truthy) = true
  · by_cases hN1 : (((m.get ("usage")).get ("input"))).isNum = true
    · obtain ⟨x, hx⟩ := exists_num_of_isNum_ok _ hN1 h1
      simp [hA, hx, jsAdd_num, ha]
    · have e1 : numVal ((m.get ("usage")).get ("input")) = none :=
        numVal_eq_none _ (by simpa using hN1)
      by_cases hN2 : (((m.get ("usage")).get ("inputTokens"))).isNum = true
      · obtain ⟨x, hx⟩ := exists_num_of_isNum_ok _ hN2 h2
        simp [hA, hN1, hx, e1, jsAdd_num, ha]
      · have e2 : numVal ((m.get ("usage")).get ("inputTokens")) = none :=
          numVal_eq_none _ (by simpa using hN2)
        by_cases hN3 : (((m.get ("usage")).get ("input_tokens"))).isNum = true
        · obtain ⟨x, hx⟩ := exists_num_of_isNum_ok _ hN3 h3
          simp [hA, hN1, hN2, hx, e1, e2, jsAdd_num, ha]
        · have e3 : numVal ((m.get ("usage")).get ("input_tokens")) = none :=
            numVal_eq_none _ (by simpa using hN3)
          simp [hA, hN1, hN2, hN3, e1, e2, e3, ha]
  · simp [hA, ha]

theorem usageStep_output (t : UsageTotals) (m : Val) (b : Int) (hb : t.output = .num b)
    (hm : msgUsageOk m = true) :
    (usageStep t m).output = .num (b + msgOutputTokens m) := by
  simp only [msgUsageOk, Bool.and_eq_true, and_assoc] at hm
  obtain ⟨h1, h2, h3, h4, h5, h6, h7, h8⟩ := hm
  unfold usageStep msgOutputTokens
  by_cases hA : (isAssistant m && (m.get ("usage")).truthy) = true
  · by_cases hN1 : (((m.get ("usage")).get ("output"))).isNum = true
    · obtain ⟨x, hx⟩ := exists_num_of_isNum_ok _ hN1 h4
      simp [hA, hx, jsAdd_num, hb]
    · have e1 : numVal ((m.get ("usage")).get ("output")) = none :=
        numVal_eq_none _ (by simpa using hN1)
      by_cases hN2 : (((m.get ("usage")).get ("outputTokens"))).isNum = true
      · obtain ⟨x, hx⟩ := exists_num_of_isNum_ok _ hN2 h5
        simp [hA, hN1, hx, e1, jsAdd_num, hb]
      · have e2 : numVal ((m.get ("usage")).get ("outputTokens")) = none :=
          numVal_eq_none _ (by simpa using hN2)
        by_cases hN3 : (((m.get ("usage")).get ("output_tokens"))).isNum = true
        · obtain ⟨x, hx⟩ := exists_num_of_isNum_ok _ hN3 h6
          simp [hA, hN1, hN2, hx, e1, e2, jsAdd_num, hb]
        · have e3 : numVal ((m.get ("usage")).get ("output_tokens")) = none :=
            numVal_eq_none _ (by simpa using hN3)
          simp [hA, hN1, hN2, hN3, e1, e2, e3, hb]
  · simp [hA, hb]

theorem usageStep_cacheRead (t : UsageTotals) (m : Val) (c : Int)
    (hc : t.cacheRead = .num c) (hm : msgUsageOk m = true) :
    (usageStep t m).cacheRead = .num (c + msgCacheReadTokens m) := by
  simp only [msgUsageOk, Bool.and_eq_true, and_assoc] at hm
  obtain ⟨h1, h2, h3, h4, h5, h6, h7, h8⟩ := hm
  unfold usageStep msgCacheReadTokens
  by_cases hA : (isAssistant m && (m.get ("usage")).truthy) = true
  · by_cases hN1 : (((m.get ("usage")).get ("cacheRead"))).isNum = true
    · obtain ⟨x, hx⟩ := exists_num_of_isNum_ok _ hN1 h7
      simp [hA, hx, jsAdd_num, hc]
    · have e1 : numVal ((m.get ("usage")).get ("cacheRead")) = none :=
        numVal_eq_none _ (by simpa using hN1)
      simp [hA, hN1, e1, hc]
  · simp [hA, hc]

theorem usageStep_cacheWrite (t : UsageTotals) (m : Val) (c : Int)
    (hc : t.cacheWrite = .num c) (hm : msgUsageOk m = true) :
    (usageStep t m).cacheWrite = .num (c + msgCacheWriteTokens m) := by
  simp only [msgUsageOk, Bool.and_eq_true, and_assoc] at hm
  obtain ⟨h1, h2, h3, h4, h5, h6, h7, h8⟩ := hm
  unfold usageStep msgCacheWriteTokens
  by_cases hA : (isAssistant m && (m.get ("usage")).truthy) = true
  · by_cases hN1 : (((m.get ("usage")).get ("cacheWrite"))).isNum = true
    · obtain ⟨x, hx⟩ := exists_num_of_isNum_ok _ hN1 h8
      simp [hA, hx, jsAdd_num, hc]
    · have e1 : numVal ((m.get ("usage")).get ("cacheWrite")) = none :=
        numVal_eq_none _ (by simpa using hN1)
      simp [hA, hN1, e1, hc]
  · simp [hA, hc]

/-- The fallback loop computes exactly the spec-side sums over all
messages of the transcript. -/
theorem foldTotals (msgs : List Val) (t : UsageTotals) (a b c d : Int)
    (hmsgs : msgs.all msgUsageOk = true)
    (ha : t.input = .num a) (hb : t.output = .num b)
    (hc : t.cacheRead = .num c) (hd : t.cacheWrite = .num d) :
    (msgs.foldl usageStep t).input = .num (a + sumInputTokens msgs) ∧
    (msgs.foldl usageStep t).output = .num (b + sumOutputTokens msgs) ∧
    (msgs.foldl usageStep t).cacheRead = .num (c + sumCacheReadTokens msgs) ∧
    (msgs.foldl usageStep t).cacheWrite = .num (d + sumCacheWriteTokens msgs) := by
  induction msgs generalizing t a b c d with
  | nil =>
    simp [sumInputTokens, sumOutputTokens, sumCacheReadTokens, sumCacheWriteTokens,
      ha, hb, hc, hd]
  | cons m rest ih =>
    simp only [List.all_cons, Bool.and_eq_true] at hmsgs
    obtain ⟨hm, hrest⟩ := hmsgs
    have s1 := usageStep_input t m a ha hm
    have s2 := usageStep_output t m b hb hm
    have s3 := usageStep_cacheRead t m c hc hm
    have s4 := usageStep_cacheWrite t m d hd hm
    have hrec := ih (usageStep t m) (a + msgInputTokens m) (b + msgOutputTokens m)
      (c + msgCacheReadTokens m) (d + msgCacheWriteTokens m) hrest s1 s2 s3 s4
    simp only [List.foldl_cons]
    refine ⟨?_, ?_, ?_, ?_⟩ <;>
      simp [hrec.1, hrec.2.1, hrec.2.2.1, hrec.2.2.2, sumInputTokens, sumOutputTokens,
        sumCacheReadTokens, sumCacheWriteTokens, add_assoc]

set_option maxHeartbeats 3200000 in
/-- C4: at a turn-end with no `PendingUsageRecord`, the token attributes
attached to the agent span are the sums of the corresponding usage
fields over all assistant messages of the transcript (not only the
last); the cache attributes are attached exactly when their sum is
positive.  Stated for transcripts whose usage fields, where present, are
plain numbers. -/
theorem C4_transcript_sums_all_assistant_messages (k aid m : String) (hk : k ≠ "")
    (msgs : List Val) (succ : Bool) (d : Int) (hmsgs : msgs.all msgUsageOk = true) :
    let s2 := agentEnd 7 false
      (beforeAgentStart 0 initState (mkStartEvent k aid m) (mkCtxV k aid))
      (mkEndEvent k msgs succ .undef (.num d)) (mkCtxV k aid)
    spanAttr s2 1 ("gen_ai.usage.input_tokens") = some (.num (sumInputTokens msgs)) ∧
    spanAttr s2 1 ("gen_ai.usage.output_tokens") = some (.num (sumOutputTokens msgs)) ∧
    (0 < sumCacheReadTokens msgs →
      spanAttr s2 1 ("gen_ai.usage.cache_read_tokens")
        = some (.num (sumCacheReadTokens msgs))) ∧
    (sumCacheReadTokens msgs ≤ 0 →
      spanAttr s2 1 ("gen_ai.usage.cache_read_tokens") = none) ∧
    (0 < sumCacheWriteTokens msgs →
      spanAttr s2 1 ("gen_ai.usage.cache_write_tokens")
        = some (.num (sumCacheWriteTokens msgs))) := by
  have hs : (Val.str k).truthy = true := by simp [Val.truthy, hk]
  have hfold := foldTotals msgs initTotals 0 0 0 0 hmsgs rfl rfl rfl rfl
  have f1 : (msgs.foldl usageStep initTotals).input = .num (sumInputTokens msgs) := by
    simpa using hfold.1
  have f2 : (msgs.foldl usageStep initTotals).output = .num (sumOutputTokens msgs) := by
    simpa using hfold.2.1
  have f3 : (msgs.foldl usageStep initTotals).cacheRead = .num (sumCacheReadTokens msgs) := by
    simpa using hfold.2.2.1
  have f4 : (msgs.foldl usageStep initTotals).cacheWrite = .num (sumCacheWriteTokens msgs) := by
    simpa using hfold.2.2.2
  refine ⟨?_, ?_, ?_, ?_, ?_⟩ <;>
    first
    | (intro hcond
       simp [agentEnd, endSessionKey, beforeAgentStart, mkStartEvent, mkEndEvent, mkCtxV, Val.get,
         jsOr, hs, hk, hcond, f1, f2, f3, f4, List.find?, initState, startSpan, alookup,
         aset, aerase, Val.beq_refl', pendingTake, iterElems, captureCompute,
         Val.isNum, Val.truthy, jsGt, jsToNumber, spanAttr_def,
         spanSetAttr, spanSetStatus, spanEnd, withSpan, attrLookup, setAttrL,
         not_lt.2 hcond])
    | simp [agentEnd, endSessionKey, beforeAgentStart, mkStartEvent, mkEndEvent, mkCtxV, Val.get,
        jsOr, hs, hk, f1, f2, f3, f4, List.find?, initState, startSpan, alookup,
        aset, aerase, Val.beq_refl', pendingTake, iterElems, captureCompute,
        Val.isNum, Val.truthy, jsGt, jsToNumber, spanAttr_def,
        spanSetAttr, spanSetStatus, spanEnd, withSpan, attrLookup, setAttrL]

/-- Witness for C4: two assistant messages with usage 10/5 and 7/3 yield
input 17 and output 8 on the agent span. -/
theorem C4_witness :
    spanAttr
      (agentEnd 7 false
        (beforeAgentStart 0 initState (mkStartEvent ("s1") ("a1") ("m")) (mkCtxV ("s1") ("a1")))
        (mkEndEvent ("s1") [mkAssistantMsg (mkUsage 10 5), mkAssistantMsg (mkUsage 7 3)]
          true .undef (.num 42))
        (mkCtxV ("s1") ("a1")))
      1 ("gen_ai.usage.input_tokens") = some (.num 17) := by
  have h := (C4_transcript_sums_all_assistant_messages ("s1") ("a1") ("m") (by decide)
    [mkAssistantMsg (mkUsage 10 5), mkAssistantMsg (mkUsage 7 3)] true 42 (by decide)).1
  simpa [sumInputTokens, msgInputTokens, mkAssistantMsg, mkUsage, isAssistant, isStrV,
    Val.get, Val.truthy, numVal, List.find?] using h

/-! ## C6 — the stale-context reaper -/

set_option maxHeartbeats 1600000 in
/-- C6: an entry whose `startTime` is more than the five-minute
threshold before a reaper sweep and which is still present (no turn-end)
is force-closed by the sweep — the agent span and the (distinct) root
span are each ended exactly once — and removed from the store; a
subsequent turn-start with the same session key then creates a
brand-new root span (span 2) instead of resurrecting the reaped root
(span 0). -/
theorem C6_reaper_closes_and_removes_stale_entry (k aid m aid2 m2 : String)
    (hk : k ≠ "") (now later : Nat) (hstale : maxAge < now) :
    let s1 := beforeAgentStart 0 initState (mkStartEvent k aid m) (mkCtxV k aid)
    let s2 := reaperSweep now s1
    let s3 := beforeAgentStart later s2 (mkStartEvent k aid2 m2) (mkCtxV k aid2)
    alookup s2.sessionContextMap (.str k) = none ∧
    (findSpan s2 0).map SpanData.endCount = some 1 ∧
    (findSpan s2 1).map SpanData.endCount = some 1 ∧
    (alookup s3.sessionContextMap (.str k)).map SessionTraceContext.rootSpan = some 2 ∧
    (s3.spans.filter (fun sp => sp.name = "openclaw.request")).map SpanData.sid = [0, 2] := by
  have hs : (Val.str k).truthy = true := by simp [Val.truthy, hk]
  refine ⟨?_, ?_, ?_, ?_, ?_⟩ <;>
    simp [reaperSweep, isStale, reapEntry, beforeAgentStart, mkStartEvent, mkCtxV,
      Val.get, jsOr, hs, hk, hstale, List.find?, initState, startSpan, alookup, aset,
      Val.beq_refl', spanEnd, withSpan, findSpan, List.filter]

/-- Witness for C6 at a concrete session and sweep time. -/
theorem C6_witness :
    ("s1" : String) ≠ "" ∧ maxAge < 6 * 60 * 1000 ∧
    alookup (reaperSweep (6 * 60 * 1000)
      (beforeAgentStart 0 initState (mkStartEvent ("s1") ("a1") ("m"))
        (mkCtxV ("s1") ("a1")))).sessionContextMap (.str ("s1")) = none :=
  ⟨by decide, by decide,
    (C6_reaper_closes_and_removes_stale_entry ("s1") ("a1") ("m") ("a2") ("m2")
      (by decide) (6 * 60 * 1000) 7 (by decide)).1⟩

/-! ## C9 — the reaper never touches the side table -/

/-- List-level lookup of a span's end-count, for evaluation under simp. -/
def spansEndCount (l : List SpanData) (sid : Nat) : Option Nat :=
  (l.find? (fun sp => sp.sid = sid)).map SpanData.endCount

theorem findSpan_endCount_def (s : S) (sid : Nat) :
    (findSpan s sid).map SpanData.endCount = spansEndCount s.spans sid := rfl

@[simp] theorem spansEndCount_ite (c : Prop) [Decidable c] (a b : List SpanData) (sid : Nat) :
    spansEndCount (if c then a else b) sid
      = if c then spansEndCount a sid else spansEndCount b sid := by
  split <;> rfl

@[simp] theorem spansEndCount_nil (sid : Nat) : spansEndCount [] sid = none := rfl

@[simp] theorem spansEndCount_cons (sp : SpanData) (l : List SpanData) (sid : Nat) :
    spansEndCount (sp :: l) sid
      = if sp.sid = sid then some sp.endCount else spansEndCount l sid := by
  by_cases h : sp.sid = sid <;> simp [spansEndCount, List.find?, h]

theorem reapEntry_aas (s : S) (c : SessionTraceContext) :
    (reapEntry s c).activeAgentSpans = s.activeAgentSpans := by
  rcases hc : c.agentSpan <;>
    simp [reapEntry, hc, apply_ite S.activeAgentSpans]

theorem reapEntry_pum (s : S) (c : SessionTraceContext) :
    (reapEntry s c).pendingUsageMap = s.pendingUsageMap := by
  rcases hc : c.agentSpan <;>
    simp [reapEntry, hc, apply_ite S.pendingUsageMap]

theorem reapFold_aas (l : List (Val × SessionTraceContext)) (s : S) :
    (l.foldl (fun s e => reapEntry s e.snd) s).activeAgentSpans = s.activeAgentSpans := by
  induction l generalizing s with
  | nil => rfl
  | cons hd tl ih => simp [List.foldl_cons, ih, reapEntry_aas]

theorem reapFold_pum (l : List (Val × SessionTraceContext)) (s : S) :
    (l.foldl (fun s e => reapEntry s e.snd) s).pendingUsageMap = s.pendingUsageMap := by
  induction l generalizing s with
  | nil => rfl
  | cons hd tl ih => simp [List.foldl_cons, ih, reapEntry_pum]

theorem reaperSweep_aas (now : Nat) (s : S) :
    (reaperSweep now s).activeAgentSpans = s.activeAgentSpans := by
  unfold reaperSweep
  simp [reapFold_aas]

theorem reaperSweep_pum (now : Nat) (s : S) :
    (reaperSweep now s).pendingUsageMap = s.pendingUsageMap := by
  unfold reaperSweep
  simp [reapFold_pum]

set_option maxHeartbeats 1600000 in
/-- C9: the periodic sweep deletes entries only from the session context
store — for every state it leaves the active-agent-spans side table (and
the pending-usage map) untouched; consequently, for a reaped session
whose turn-start registered a side-table entry, a later usage record
still finds the registered agent span (already ended once by the
reaper), attaches its attributes to that ended span, and leaves no
`PendingUsageRecord` behind. -/
theorem C9_reaper_leaves_side_table_so_late_usage_attaches :
    (∀ (now : Nat) (s : S),
      (reaperSweep now s).activeAgentSpans = s.activeAgentSpans ∧
      (reaperSweep now s).pendingUsageMap = s.pendingUsageMap) ∧
    (∀ (k aid m mdl prov : String) (uf : List (String × Val)) (now : Nat),
      k ≠ "" → maxAge < now →
      let s1 := beforeAgentStart 0 initState (mkStartEvent k aid m) (mkCtxV k aid)
      let s2 := reaperSweep now s1
      let s3 := onDiagnostic s2 (mkModelUsageEvent k (.obj uf) mdl prov)
      alookup s2.sessionContextMap (.str k) = none ∧
      alookup s2.activeAgentSpans (.str k) = some 1 ∧
      alookup s3.pendingUsageMap (.str k) = none ∧
      (findSpan s3 1).map SpanData.endCount = some 1 ∧
      ((Val.get (.obj uf) ("input")).isUndef = false →
        spanAttr s3 1 ("gen_ai.usage.input_tokens") = some (Val.get (.obj uf) ("input")))) := by
  constructor
  · exact fun now s => ⟨reaperSweep_aas now s, reaperSweep_pum now s⟩
  · intro k aid m mdl prov uf now hk hstale
    have hs : (Val.str k).truthy = true := by simp [Val.truthy, hk]
    refine ⟨?_, ?_, ?_, ?_, ?_⟩ <;>
      first
      | (intro hc
         try simp [Val.get, Val.isUndef, jsOr, Val.truthy, List.find?] at hc
         simp [onDiagnostic, enrichSpanWithUsage, isStrV,
           reaperSweep, isStale, reapEntry, beforeAgentStart, mkStartEvent, mkCtxV,
           mkModelUsageEvent, Val.get, jsOr, hs, hk, hstale, hc, List.find?, initState,
           startSpan, alookup, aset, aerase, Val.beq_refl', Val.truthy, Val.isUndef,
           Val.isNum, jsGt, jsToNumber, spanAttr_def, findSpan_endCount_def,
           spanSetAttr, spanSetStatus,
           spanEnd, withSpan, attrLookup, setAttrL, List.filter])
      | simp [onDiagnostic, enrichSpanWithUsage, isStrV,
          reaperSweep, isStale, reapEntry, beforeAgentStart, mkStartEvent, mkCtxV,
          mkModelUsageEvent, Val.get, jsOr, hs, hk, hstale, List.find?, initState,
          startSpan, alookup, aset, aerase, Val.beq_refl', Val.truthy, Val.isUndef,
          Val.isNum, jsGt, jsToNumber, spanAttr_def, findSpan_endCount_def,
          spanSetAttr, spanSetStatus,
          spanEnd, withSpan, attrLookup, setAttrL, List.filter]

/-- Witness for C9 at a concrete session, sweep time and usage record. -/
theorem C9_witness :
    ("s1" : String) ≠ "" ∧ maxAge < 6 * 60 * 1000 ∧
    alookup (onDiagnostic
      (reaperSweep (6 * 60 * 1000)
        (beforeAgentStart 0 initState (mkStartEvent ("s1") ("a1") ("m")) (mkCtxV ("s1") ("a1"))))
      (mkModelUsageEvent ("s1") (.obj [("input", .num 7)]) ("m5") ("p"))).pendingUsageMap
      (.str ("s1")) = none :=
  ⟨by decide, by decide,
    ((C9_reaper_leaves_side_table_so_late_usage_attaches.2 ("s1") ("a1") ("m") ("m5") ("p")
      [("input", .num 7)] (6 * 60 * 1000) (by decide) (by decide)).2.2.1)⟩

/-! ## C10 — turn-end with no stored session context -/

/-- C10: a turn-end whose session key has no stored
`SessionTraceContext` still consumes and deletes any pending usage
record for that session, attaches no span attributes (the span store is
unchanged), records no metrics and no histogram (the metric log is
unchanged), leaves the context store unchanged, and at most erases the
session's side-table entry — for every state, payload (well-formed or
not), capture setting and time. -/
theorem C10_turn_end_without_context (now : Nat) (capture : Bool) (s : S) (event ctx : Val)
    (hmiss : alookup s.sessionContextMap (endSessionKey event ctx) = none) :
    alookup (agentEnd now capture s event ctx).pendingUsageMap (endSessionKey event ctx) = none ∧
    (agentEnd now capture s event ctx).spans = s.spans ∧
    (agentEnd now capture s event ctx).metricLog = s.metricLog ∧
    (agentEnd now capture s event ctx).sessionContextMap = s.sessionContextMap ∧
    ((agentEnd now capture s event ctx).activeAgentSpans
        = aerase s.activeAgentSpans (endSessionKey event ctx) ∨
      (agentEnd now capture s event ctx).activeAgentSpans = s.activeAgentSpans) := by
  rcases hp : alookup s.pendingUsageMap (endSessionKey event ctx) with _ | r
  · rcases hit : iterElems (jsOr (event.get ("messages")) (.arr [])) with _ | msgs
    · refine ⟨?_, ?_, ?_, ?_, .inr ?_⟩ <;>
        simp [agentEnd, pendingTake, hp, hit, hmiss]
    · rcases hcc : captureCompute capture (jsOr (event.get ("messages")) (.arr [])) with _ | pq
      · refine ⟨?_, ?_, ?_, ?_, .inr ?_⟩ <;>
          simp [agentEnd, pendingTake, hp, hit, hcc, hmiss]
      · refine ⟨?_, ?_, ?_, ?_, .inl ?_⟩ <;>
          simp [agentEnd, pendingTake, hp, hit, hcc, hmiss,
            aerase_of_alookup_none _ _ hmiss]
  · rcases hcc : captureCompute capture (jsOr (event.get ("messages")) (.arr [])) with _ | pq
    · refine ⟨?_, ?_, ?_, ?_, .inr ?_⟩ <;>
        simp [agentEnd, pendingTake, hp, hcc, hmiss, alookup_aerase_self]
    · refine ⟨?_, ?_, ?_, ?_, .inl ?_⟩ <;>
        simp [agentEnd, pendingTake, hp, hcc, hmiss, alookup_aerase_self,
          aerase_of_alookup_none _ _ hmiss]

/-- Witness for C10: a pending record exists but no context; the
turn-end consumes the record and changes nothing else. -/
theorem C10_witness :
    alookup (agentEnd 9 true
      (onDiagnostic initState (mkModelUsageEvent ("s1") (.obj [("input", .num 7)]) ("m5") ("p")))
      (mkEndEvent ("s1") [] true .undef .undef) (mkCtxV ("s1") ("a1"))).pendingUsageMap
      (endSessionKey (mkEndEvent ("s1") [] true .undef .undef) (mkCtxV ("s1") ("a1"))) = none ∧
    (agentEnd 9 true
      (onDiagnostic initState (mkModelUsageEvent ("s1") (.obj [("input", .num 7)]) ("m5") ("p")))
      (mkEndEvent ("s1") [] true .undef .undef) (mkCtxV ("s1") ("a1"))).spans = [] := by
  have h := C10_turn_end_without_context 9 true
    (onDiagnostic initState (mkModelUsageEvent ("s1") (.obj [("input", .num 7)]) ("m5") ("p")))
    (mkEndEvent ("s1") [] true .undef .undef) (mkCtxV ("s1") ("a1")) (by rfl)
  exact ⟨h.1, h.2.1.trans (by rfl)⟩

/-! ## C8 — fault boundaries and the tool handler's parent choice -/

theorem map_sid_update (l : List SpanData) (n : Nat) (f : SpanData → SpanData)
    (hf : ∀ q, (f q).sid = q.sid) :
    (l.map (fun q => if q.sid = n then f q else q)).map SpanData.sid
      = l.map SpanData.sid := by
  induction l with
  | nil => rfl
  | cons hd tl ih => by_cases h : hd.sid = n <;> simp [h, hf, ih]

theorem map_parent_update (l : List SpanData) (n : Nat) (f : SpanData → SpanData)
    (hf : ∀ q, (f q).parent = q.parent) :
    (l.map (fun q => if q.sid = n then f q else q)).map SpanData.parent
      = l.map SpanData.parent := by
  induction l with
  | nil => rfl
  | cons hd tl ih => by_cases h : hd.sid = n <;> simp [h, hf, ih]

theorem map_name_update (l : List SpanData) (n : Nat) (f : SpanData → SpanData)
    (hf : ∀ q, (f q).name = q.name) :
    (l.map (fun q => if q.sid = n then f q else q)).map SpanData.name
      = l.map SpanData.name := by
  induction l with
  | nil => rfl
  | cons hd tl ih => by_cases h : hd.sid = n <;> simp [h, hf, ih]

@[simp] theorem sids_spanSetAttr (s : S) (a : Nat) (k : String) (v : Val) :
    (spanSetAttr s a k v).spans.map SpanData.sid = s.spans.map SpanData.sid := by
  simp only [spanSetAttr, withSpan_spans]
  exact map_sid_update _ _ _ (fun _ => rfl)

@[simp] theorem sids_spanSetStatus (s : S) (a : Nat) (c : StatusCode) (m : Option String) :
    (spanSetStatus s a c m).spans.map SpanData.sid = s.spans.map SpanData.sid := by
  simp only [spanSetStatus, withSpan_spans]
  exact map_sid_update _ _ _ (fun _ => rfl)

@[simp] theorem sids_spanEnd (s : S) (a : Nat) :
    (spanEnd s a).spans.map SpanData.sid = s.spans.map SpanData.sid := by
  simp only [spanEnd, withSpan_spans]
  exact map_sid_update _ _ _ (fun _ => rfl)

@[simp] theorem parents_spanSetAttr (s : S) (a : Nat) (k : String) (v : Val) :
    (spanSetAttr s a k v).spans.map SpanData.parent = s.spans.map SpanData.parent := by
  simp only [spanSetAttr, withSpan_spans]
  exact map_parent_update _ _ _ (fun _ => rfl)

@[simp] theorem parents_spanSetStatus (s : S) (a : Nat) (c : StatusCode) (m : Option String) :
    (spanSetStatus s a c m).spans.map SpanData.parent = s.spans.map SpanData.parent := by
  simp only [spanSetStatus, withSpan_spans]
  exact map_parent_update _ _ _ (fun _ => rfl)

@[simp] theorem parents_spanEnd (s : S) (a : Nat) :
    (spanEnd s a).spans.map SpanData.parent = s.spans.map SpanData.parent := by
  simp only [spanEnd, withSpan_spans]
  exact map_parent_update _ _ _ (fun _ => rfl)

@[simp] theorem names_spanSetAttr (s : S) (a : Nat) (k : String) (v : Val) :
    (spanSetAttr s a k v).spans.map SpanData.name = s.spans.map SpanData.name := by
  simp only [spanSetAttr, withSpan_spans]
  exact map_name_update _ _ _ (fun _ => rfl)

@[simp] theorem names_spanSetStatus (s : S) (a : Nat) (c : StatusCode) (m : Option String) :
    (spanSetStatus s a c m).spans.map SpanData.name = s.spans.map SpanData.name := by
  simp only [spanSetStatus, withSpan_spans]
  exact map_name_update _ _ _ (fun _ => rfl)

@[simp] theorem names_spanEnd (s : S) (a : Nat) :
    (spanEnd s a).spans.map SpanData.name = s.spans.map SpanData.name := by
  simp only [spanEnd, withSpan_spans]
  exact map_name_update _ _ _ (fun _ => rfl)

@[simp] theorem toolParent_addMetric (s : S) (i : Instr) (v : Val) (c : Val) :
    toolParent (addMetric s i v) c = toolParent s c := rfl

set_option maxHeartbeats 3200000 in
/-- The tool handler appends exactly one span, with identifier
`s.nextSid` and the documented parent choice, whatever the payload. -/
theorem toolResultPersist_sids (sec : Val → Val → Bool) (s : S) (e c : Val) :
    (toolResultPersist sec s e c).spans.map SpanData.sid
      = s.spans.map SpanData.sid ++ [s.nextSid] ∧
    (toolResultPersist sec s e c).spans.map SpanData.parent
      = s.spans.map SpanData.parent ++ [toolParent s c] ∧
    (toolResultPersist sec s e c).sessionContextMap = s.sessionContextMap ∧
    (toolResultPersist sec s e c).pendingUsageMap = s.pendingUsageMap ∧
    (toolResultPersist sec s e c).activeAgentSpans = s.activeAgentSpans ∧
    (toolResultPersist sec s e c).nextSid = s.nextSid + 1 := by
  refine ⟨?_, ?_, ?_, ?_, ?_, ?_⟩ <;>
    (simp only [toolResultPersist, startSpan]
     split <;>
       (rename_i heq
        repeat' split at heq
        all_goals try (injection heq with h; subst h)
        all_goals try injection heq
        all_goals simp))

set_option maxHeartbeats 3200000 in
theorem agentEnd_sids (now : Nat) (capture : Bool) (s : S) (e c : Val) :
    (agentEnd now capture s e c).spans.map SpanData.sid = s.spans.map SpanData.sid ∧
    (agentEnd now capture s e c).spans.map SpanData.name = s.spans.map SpanData.name ∧
    (agentEnd now capture s e c).spans.map SpanData.parent = s.spans.map SpanData.parent ∧
    (agentEnd now capture s e c).nextSid = s.nextSid := by
  refine ⟨?_, ?_, ?_, ?_⟩ <;>
    rcases hp : alookup s.pendingUsageMap (endSessionKey e c) with _ | r <;>
    (simp only [agentEnd, pendingTake, hp]
     repeat' split
     all_goals try simp
     all_goals repeat' split
     all_goals simp)

set_option maxHeartbeats 1600000 in
/-- C8: every handler is a total function of the state and an arbitrary
(possibly malformed) payload — faults degrade to "span not recorded"
early exits, never to a propagated exception — and in particular the
tool-execution handler always appends exactly one span whose parent is
the agent context if present, else the root context, else none, with a
store-lookup miss yielding the unparented context; the span-creating
handlers append exactly one span and touch no session maps, turn-start
appends two spans for a new session and one for an existing one, and
turn-end never creates a span. -/
theorem C8_handlers_never_throw_and_tool_parent_choice :
    (∀ (sec : Val → Val → Bool) (s : S) (e c : Val),
      (toolResultPersist sec s e c).spans.map SpanData.sid
        = s.spans.map SpanData.sid ++ [s.nextSid] ∧
      (toolResultPersist sec s e c).spans.map SpanData.parent
        = s.spans.map SpanData.parent ++ [toolParent s c] ∧
      (toolResultPersist sec s e c).sessionContextMap = s.sessionContextMap ∧
      (toolResultPersist sec s e c).pendingUsageMap = s.pendingUsageMap ∧
      (toolResultPersist sec s e c).activeAgentSpans = s.activeAgentSpans) ∧
    (∀ (s : S) (c : Val), alookup s.sessionContextMap (toolSessionKey c) = none →
      toolParent s c = none) ∧
    (∀ (sec : String → Bool) (s : S) (e c : Val),
      (messageReceived sec s e c).spans.map SpanData.sid
        = s.spans.map SpanData.sid ++ [s.nextSid] ∧
      (messageReceived sec s e c).sessionContextMap = s.sessionContextMap ∧
      (messageReceived sec s e c).pendingUsageMap = s.pendingUsageMap ∧
      (messageReceived sec s e c).activeAgentSpans = s.activeAgentSpans) ∧
    (∀ (s : S) (e : Val),
      (commandEvent s e).spans.map SpanData.sid = s.spans.map SpanData.sid ++ [s.nextSid] ∧
      (commandEvent s e).sessionContextMap = s.sessionContextMap) ∧
    (∀ (s : S) (e : Val),
      (gatewayStartup s e).spans.map SpanData.sid = s.spans.map SpanData.sid ++ [s.nextSid]) ∧
    (∀ (now : Nat) (s : S) (e c : Val),
      (beforeAgentStart now s e c).spans.map SpanData.sid
          = s.spans.map SpanData.sid ++ [s.nextSid, s.nextSid + 1] ∨
      (beforeAgentStart now s e c).spans.map SpanData.sid
          = s.spans.map SpanData.sid ++ [s.nextSid]) ∧
    (∀ (now : Nat) (capture : Bool) (s : S) (e c : Val),
      (agentEnd now capture s e c).spans.map SpanData.sid = s.spans.map SpanData.sid) := by
  refine ⟨?_, ?_, ?_, ?_, ?_, ?_, ?_⟩
  · intro sec s e c
    have h := toolResultPersist_sids sec s e c
    exact ⟨h.1, h.2.1, h.2.2.1, h.2.2.2.1, h.2.2.2.2.1⟩
  · intro s c h
    simp [toolParent, h]
  · intro sec s e c
    refine ⟨?_, ?_, ?_, ?_⟩ <;> simp [messageReceived, startSpan]
  · intro s e
    refine ⟨?_, ?_⟩ <;>
      (simp only [commandEvent, startSpan]
       repeat' split
       all_goals simp)
  · intro s e
    simp [gatewayStartup, startSpan]
  · intro now s e c
    rcases hL : alookup s.sessionContextMap
      (jsOr (e.get ("sessionKey")) (jsOr (c.get ("sessionKey")) (.str ("unknown")))) with _ | cc
    · left
      simp [beforeAgentStart, startSpan, hL]
    · right
      simp [beforeAgentStart, startSpan, hL]
  · intro now capture s e c
    exact (agentEnd_sids now capture s e c).1

/-! ## C1 — one root, one agent turn, tools parented under the turn -/

@[simp] theorem orElse_none_fun {α : Type} (o : Option α) :
    (o.orElse (fun _ => none)) = o := by cases o <;> rfl

@[simp] theorem spansEndCount_append (l : List SpanData) (sp : SpanData) (sid : Nat) :
    spansEndCount (l ++ [sp]) sid
      = (spansEndCount l sid).orElse
          (fun _ => if sp.sid = sid then some sp.endCount else none) := by
  induction l with
  | nil => by_cases h : sp.sid = sid <;> simp [spansEndCount, List.find?, h, Option.orElse]
  | cons hd tl ih => by_cases hh : hd.sid = sid <;> simp [hh, ih, Option.orElse]

@[simp] theorem endCount_addMetric (s : S) (i : Instr) (v : Val) (sid : Nat) :
    spansEndCount (addMetric s i v).spans sid = spansEndCount s.spans sid := rfl

theorem endCount_update_keep (l : List SpanData) (n : Nat) (f : SpanData → SpanData)
    (sid : Nat) (hfs : ∀ q, (f q).sid = q.sid) (hfe : ∀ q, (f q).endCount = q.endCount) :
    spansEndCount (l.map (fun q => if q.sid = n then f q else q)) sid
      = spansEndCount l sid := by
  by_cases h : sid = n
  · subst h
    unfold spansEndCount
    rw [find_update_self l sid f hfs]
    cases l.find? (fun sp => sp.sid = sid) <;> simp [hfe]
  · unfold spansEndCount
    rw [findSpan_map_ne l n sid f hfs h]

@[simp] theorem endCount_spanSetAttr (s : S) (a : Nat) (k : String) (v : Val) (sid : Nat) :
    spansEndCount (spanSetAttr s a k v).spans sid = spansEndCount s.spans sid := by
  simp only [spanSetAttr, withSpan_spans]
  exact endCount_update_keep _ _ _ _ (fun _ => rfl) (fun _ => rfl)

@[simp] theorem endCount_spanSetStatus (s : S) (a : Nat) (c : StatusCode) (m : Option String)
    (sid : Nat) :
    spansEndCount (spanSetStatus s a c m).spans sid = spansEndCount s.spans sid := by
  simp only [spanSetStatus, withSpan_spans]
  exact endCount_update_keep _ _ _ _ (fun _ => rfl) (fun _ => rfl)

@[simp] theorem endCount_spanEnd (s : S) (a : Nat) (sid : Nat) :
    spansEndCount (spanEnd s a).spans sid
      = if a = sid then (spansEndCount s.spans sid).map (fun n => n + 1)
        else spansEndCount s.spans sid := by
  by_cases h : a = sid
  · subst h
    rw [if_pos rfl]
    simp only [spanEnd, withSpan_spans]
    unfold spansEndCount
    rw [find_update_self s.spans a
      (fun q => { q with endCount := q.endCount + 1 }) (fun _ => rfl)]
    cases s.spans.find? (fun sp => sp.sid = a) <;> simp
  · rw [if_neg h]
    simp only [spanEnd, withSpan_spans]
    unfold spansEndCount
    rw [findSpan_map_ne s.spans a sid
      (fun q => { q with endCount := q.endCount + 1 }) (fun _ => rfl) (fun e => h e.symm)]

set_option maxHeartbeats 3200000 in
/-- The tool handler appends the span name `tool.…` and never touches
the end-count of an existing span. -/
theorem toolResultPersist_names_endCount (sec : Val → Val → Bool) (s : S) (e c : Val)
    (sid : Nat) (h : ¬ (sid = s.nextSid)) :
    (toolResultPersist sec s e c).spans.map SpanData.name
      = s.spans.map SpanData.name
        ++ ["tool." ++ jsToString (jsOr (e.get ("toolName")) (.str ("unknown")))] ∧
    spansEndCount (toolResultPersist sec s e c).spans sid = spansEndCount s.spans sid := by
  have h2 : ¬ ((addMetric s .toolCalls (.num 1)).nextSid = sid) := fun e => h e.symm
  have h3 : ¬ (s.nextSid = sid) := fun e => h e.symm
  refine ⟨?_, ?_⟩ <;>
    (simp only [toolResultPersist, startSpan]
     split <;>
       (rename_i heq
        repeat' split at heq
        all_goals try (injection heq with hh; subst hh)
        all_goals try injection heq
        all_goals simp [h2, h3, h]))

/-- Invariant of the C1 execution after turn-start and any number of
tool events for session `k`: the store holds exactly the one context
(root span 0, agent span 1), the root and agent span are not yet ended,
and every further span is a tool span parented under the agent span. -/
structure C1Inv (k : String) (t0 : Nat) (s : S) : Prop where
  scm : s.sessionContextMap
      = [(.str k, ⟨0, some 0, some 1, some 1, t0⟩)]
  pum : s.pendingUsageMap = []
  aas : s.activeAgentSpans = [(.str k, 1)]
  sids : s.spans.map SpanData.sid = List.range s.nextSid
  two_le : 2 ≤ s.nextSid
  ec0 : spansEndCount s.spans 0 = some 0
  ec1 : spansEndCount s.spans 1 = some 0
  names : ∃ tns, s.spans.map SpanData.name
      = "openclaw.request" :: "openclaw.agent.turn" :: tns ∧
      ∀ nm ∈ tns, ∃ x, nm = "tool." ++ x
  parents : s.spans.map SpanData.parent
      = none :: some 0 :: List.replicate (s.nextSid - 2) (some 1)

theorem C1Inv_start (k aid m : String) (hk : k ≠ "") (t0 : Nat) :
    C1Inv k t0 (beforeAgentStart t0 initState (mkStartEvent k aid m) (mkCtxV k aid)) := by
  have hs : (Val.str k).truthy = true := by simp [Val.truthy, hk]
  refine ⟨?_, ?_, ?_, ?_, ?_, ?_, ?_, ⟨[], ?_, by simp⟩, ?_⟩ <;>
    simp [beforeAgentStart, mkStartEvent, mkCtxV, Val.get, jsOr, hs, hk, List.find?,
      initState, startSpan, alookup, aset, Val.beq_refl', spansEndCount, List.range,
      List.range.loop, List.replicate]

theorem C1Inv_tool (k : String) (hk : k ≠ "") (t0 : Nat) (aidT : String)
    (sec : Val → Val → Bool) (e : Val) (s : S) (hInv : C1Inv k t0 s) :
    C1Inv k t0 (toolResultPersist sec s e (mkCtxV k aidT)) ∧
    (toolResultPersist sec s e (mkCtxV k aidT)).nextSid = s.nextSid + 1 := by
  have hs : (Val.str k).truthy = true := by simp [Val.truthy, hk]
  have hfr := toolResultPersist_sids sec s e (mkCtxV k aidT)
  have hparent : toolParent s (mkCtxV k aidT) = some 1 := by
    simp [toolParent, toolSessionKey, mkCtxV, Val.get, List.find?, jsOr, hs, hk,
      hInv.scm, alookup, Val.beq_refl']
  have h0 : ¬ ((0 : Nat) = s.nextSid) := by
    have := hInv.two_le; omega
  have h1 : ¬ ((1 : Nat) = s.nextSid) := by
    have := hInv.two_le; omega
  have hne := toolResultPersist_names_endCount sec s e (mkCtxV k aidT)
  refine ⟨⟨?_, ?_, ?_, ?_, ?_, ?_, ?_, ?_, ?_⟩, hfr.2.2.2.2.2⟩
  · rw [hfr.2.2.1, hInv.scm]
  · rw [hfr.2.2.2.1, hInv.pum]
  · rw [hfr.2.2.2.2.1, hInv.aas]
  · rw [hfr.1, hInv.sids, hfr.2.2.2.2.2, List.range_succ]
  · rw [hfr.2.2.2.2.2]; have := hInv.two_le; omega
  · rw [(hne 0 h0).2, hInv.ec0]
  · rw [(hne 1 h1).2, hInv.ec1]
  · obtain ⟨tns, hn, hall⟩ := hInv.names
    exact ⟨tns ++ ["tool." ++ jsToString (jsOr (e.get ("toolName")) (.str ("unknown")))],
      by rw [(hne 0 h0).1, hn]; simp,
      by
        intro nm hm
        rcases List.mem_append.mp hm with hmem | hmem
        · exact hall nm hmem
        · exact ⟨_, by simpa using hmem⟩⟩
  · rw [hfr.2.1, hInv.parents, hparent, hfr.2.2.2.2.2]
    have h2 := hInv.two_le
    have : s.nextSid + 1 - 2 = (s.nextSid - 2) + 1 := by omega
    rw [this, List.replicate_succ']
    simp

theorem C1Inv_fold (k : String) (hk : k ≠ "") (t0 : Nat) (aidT : String)
    (sec : Val → Val → Bool) (es : List Val) (s : S) (hInv : C1Inv k t0 s) :
    C1Inv k t0 (es.foldl (fun s e => toolResultPersist sec s e (mkCtxV k aidT)) s) ∧
    (es.foldl (fun s e => toolResultPersist sec s e (mkCtxV k aidT)) s).nextSid
      = s.nextSid + es.length := by
  induction es generalizing s with
  | nil => exact ⟨hInv, rfl⟩
  | cons e rest ih =>
    obtain ⟨h1, h2⟩ := C1Inv_tool k hk t0 aidT sec e s hInv
    obtain ⟨h3, h4⟩ := ih _ h1
    refine ⟨by simpa using h3, ?_⟩
    simp only [List.foldl_cons] at h4 ⊢
    rw [h4, h2]
    simp [List.length_cons]
    omega

set_option maxHeartbeats 3200000 in
/-- Closing a C1 execution: the turn-end handler ends the agent span and
the root span exactly once each, creates no spans, keeps every parent,
and removes the store entry. -/
theorem agentEnd_close_C1 (k aid : String) (hk : k ≠ "") (tEnd : Nat) (msgs : List Val)
    (succ : Bool) (dms : Int) (t0 : Nat) (s : S) (hInv : C1Inv k t0 s) :
    spansEndCount (agentEnd tEnd false s
      (mkEndEvent k msgs succ .undef (.num dms)) (mkCtxV k aid)).spans 0 = some 1 ∧
    spansEndCount (agentEnd tEnd false s
      (mkEndEvent k msgs succ .undef (.num dms)) (mkCtxV k aid)).spans 1 = some 1 ∧
    (agentEnd tEnd false s
      (mkEndEvent k msgs succ .undef (.num dms)) (mkCtxV k aid)).spans.map SpanData.name
      = s.spans.map SpanData.name ∧
    (agentEnd tEnd false s
      (mkEndEvent k msgs succ .undef (.num dms)) (mkCtxV k aid)).spans.map SpanData.parent
      = s.spans.map SpanData.parent ∧
    alookup (agentEnd tEnd false s
      (mkEndEvent k msgs succ .undef (.num dms)) (mkCtxV k aid)).sessionContextMap
      (.str k) = none := by
  have hs : (Val.str k).truthy = true := by simp [Val.truthy, hk]
  refine ⟨?_, ?_, ?_, ?_, ?_⟩ <;>
    simp [agentEnd, endSessionKey, mkEndEvent, mkCtxV, Val.get, jsOr, hs, hk,
      List.find?, hInv.scm, hInv.pum, hInv.ec0, hInv.ec1, pendingTake, alookup,
      aerase, aset, Val.beq_refl', iterElems, captureCompute, Val.isNum, Val.truthy]

theorem tool_name_ne_root (x : String) : "tool." ++ x ≠ "openclaw.request" := by
  intro h
  have h2 := congrArg String.data h
  simp [String.data_append] at h2

theorem tool_name_ne_turn (x : String) : "tool." ++ x ≠ "openclaw.agent.turn" := by
  intro h
  have h2 := congrArg String.data h
  simp [String.data_append] at h2

/-- C1: for every execution of one turn-start, N tool-execution events
and one turn-end for a single session key, exactly one root span and
exactly one agent-turn span are created, each ended exactly once, and
every tool span created by the tool handler is parented under the
agent-turn span (the parent list is root, agent, then N copies of the
agent span). -/
theorem C1_one_root_one_turn_tools_under_turn (k aid m aidT aid2 : String)
    (hk : k ≠ "") (t0 tEnd : Nat) (sec : Val → Val → Bool)
    (es : List Val) (msgs : List Val) (succ : Bool) (dms : Int) :
    let s1 := beforeAgentStart t0 initState (mkStartEvent k aid m) (mkCtxV k aid)
    let sN := es.foldl (fun s e => toolResultPersist sec s e (mkCtxV k aidT)) s1
    let sEnd := agentEnd tEnd false sN (mkEndEvent k msgs succ .undef (.num dms)) (mkCtxV k aid2)
    (sEnd.spans.map SpanData.name).count ("openclaw.request") = 1 ∧
    (sEnd.spans.map SpanData.name).count ("openclaw.agent.turn") = 1 ∧
    spansEndCount sEnd.spans 0 = some 1 ∧
    spansEndCount sEnd.spans 1 = some 1 ∧
    sEnd.spans.map SpanData.parent = none :: some 0 :: List.replicate es.length (some 1) ∧
    sEnd.spans.length = 2 + es.length := by
  intro s1 sN sEnd
  obtain ⟨hInv, hsid⟩ := C1Inv_fold k hk t0 aidT sec es _ (C1Inv_start k aid m hk t0)
  have hstart : s1.nextSid = 2 := by
    have hs : (Val.str k).truthy = true := by simp [Val.truthy, hk]
    simp [s1, beforeAgentStart, mkStartEvent, mkCtxV, Val.get, jsOr, hs, hk,
      List.find?, initState, startSpan, alookup, aset, Val.beq_refl']
  have hn : sN.nextSid = 2 + es.length := by
    rw [hsid, hstart]
    try omega
  obtain ⟨hc0, hc1, hnames, hparents, _⟩ :=
    agentEnd_close_C1 k aid2 hk tEnd msgs succ dms t0 sN hInv
  obtain ⟨tns, htn, hall⟩ := hInv.names
  have hcount1 : tns.count ("openclaw.request") = 0 := by
    refine List.count_eq_zero.mpr ?_
    intro hmem
    obtain ⟨x, hx⟩ := hall _ hmem
    exact tool_name_ne_root x hx.symm
  have hcount2 : tns.count ("openclaw.agent.turn") = 0 := by
    refine List.count_eq_zero.mpr ?_
    intro hmem
    obtain ⟨x, hx⟩ := hall _ hmem
    exact tool_name_ne_turn x hx.symm
  refine ⟨?_, ?_, hc0, hc1, ?_, ?_⟩
  · rw [hnames, htn]
    simp [List.count_cons, hcount1]
  · rw [hnames, htn]
    simp [List.count_cons, hcount2]
  · rw [hparents, hInv.parents, hn]
    simp
  · have := congrArg List.length hnames
    have h2 := congrArg List.length hInv.sids
    simp at this h2
    rw [this, h2, hn]
    try simp

/-- Witness for C1 at a concrete two-tool execution. -/
theorem C1_witness :
    spansEndCount
      (agentEnd 9 false
        ([mkToolEvent ("Read") ("t1") .undef, mkToolEvent ("exec") ("t2") .undef].foldl
          (fun s e => toolResultPersist (fun _ _ => false) s e (mkCtxV ("s1") ("a1")))
          (beforeAgentStart 0 initState (mkStartEvent ("s1") ("a1") ("m")) (mkCtxV ("s1") ("a1"))))
        (mkEndEvent ("s1") [mkAssistantMsg (mkUsage 10 5)] true .undef (.num 42))
        (mkCtxV ("s1") ("a1"))).spans 1 = some 1 := by
  have h := (C1_one_root_one_turn_tools_under_turn ("s1") ("a1") ("m") ("a1") ("a1")
    (by decide) 0 9 (fun _ _ => false)
    [mkToolEvent ("Read") ("t1") .undef, mkToolEvent ("exec") ("t2") .undef]
    [mkAssistantMsg (mkUsage 10 5)] true 42)
  exact h.2.2.2.1

/-- Witness for C8: the store-miss conjunct applied at a concrete empty
store. -/
theorem C8_witness :
    alookup initState.sessionContextMap (toolSessionKey (mkCtxV ("s1") ("a1"))) = none ∧
    toolParent initState (mkCtxV ("s1") ("a1")) = none :=
  ⟨rfl, C8_handlers_never_throw_and_tool_parent_choice.2.1 initState
    (mkCtxV ("s1") ("a1")) rfl⟩

/-- Witness for the amended C5 theorem at a concrete session. -/
theorem C5_amended_witness :
    ("s1" : String) ≠ "" ∧
    ((beforeAgentStart 5 (beforeAgentStart 0 initState (mkStartEvent ("s1") ("a1") ("m"))
        (mkCtxV ("s1") ("a1"))) (mkStartEvent ("s1") ("a2") ("m2")) (mkCtxV ("s1") ("a2"))).spans.filter
      (fun sp => sp.name = "openclaw.request")).length = 1 :=
  ⟨by decide, (C5_amended_root_reused_within_open_session ("s1") ("a1") ("m") ("a2") ("m2") 0 5 (by decide)).1⟩

end OpenClawObs
